import Mathlib

set_option maxRecDepth 10000

/-!
Verification development for the simple_ftp repository: a hand-rolled FTP
client (simple_ftp.py) and server (simple_ftp_server.py) over raw TCP.
Strings are modelled as lists of characters; the POSIX path functions used
by the server (os.path.normpath, os.path.join, os.path.abspath, ...) are
embedded faithfully from CPython's posixpath implementations.  Sockets and
the filesystem are modelled by explicit oracles; each server command
handler returns the replies it sends, the successor session state and the
list of filesystem operations it attempts.
-/

namespace SimpleFTP

/-- Strings are modelled as lists of characters. -/
abbrev Str := List Char

/-- Models Python str.startswith (first argument is the needle). -/
def startsWith : Str → Str → Bool
  | [], _ => true
  | _ :: _, [] => false
  | c :: cs, d :: ds => c == d && startsWith cs ds

/-- Models Python str.split(sep) for a one-character separator: the list of
fields between separators (never empty; adjacent separators give empty
fields). -/
def pySplitChar (sep : Char) : Str → List Str
  | [] => [[]]
  | c :: rest =>
    let r := pySplitChar sep rest
    if c == sep then [] :: r else (c :: r.headI) :: r.tail

/-- Models Python sep.join(parts) for a one-character separator. -/
def joinChar (sep : Char) : List Str → Str
  | [] => []
  | [w] => w
  | w :: ws => w ++ sep :: joinChar sep ws

/-- Models Python str.split(sep, 1): the text before the first separator
and, when a separator occurs, the remainder after it. -/
def pySplit1 (sep : Char) : Str → Str × Option Str
  | [] => ([], none)
  | c :: rest =>
    if c == sep then ([], some rest)
    else
      let (h, t) := pySplit1 sep rest
      (c :: h, t)

/-- posixpath.join for two operands. -/
def pyJoin (a b : Str) : Str :=
  if startsWith ("/".data) b then b
  else if a = [] ∨ a.getLast? = some '/' then a ++ b
  else a ++ '/' :: b

/-- The number of initial slashes that posixpath.normpath keeps (0, 1 or 2;
exactly two leading slashes are preserved by POSIX). -/
def initialSlashes (p : Str) : Nat :=
  if startsWith ("/".data) p then
    if startsWith ("//".data) p && ! startsWith ("///".data) p then 2 else 1
  else 0

/-- One step of posixpath.normpath's component loop: skip empty and dot
components, append ordinary components, pop on a dotdot component (except
leading dotdots of a relative path, which are kept, and dotdots at the
root of an absolute path, which are dropped). -/
def normStep (absFlag : Bool) (acc : List Str) (comp : Str) : List Str :=
  if comp = [] ∨ comp = (".".data) then acc
  else if comp ≠ ("..".data) ∨ (absFlag = false ∧ acc = []) ∨
      (acc ≠ [] ∧ acc.getLast? = some ("..".data)) then acc ++ [comp]
  else if acc ≠ [] then acc.dropLast
  else acc

/-- posixpath.normpath. -/
def normpath (p : Str) : Str :=
  if p = [] then (".".data)
  else
    let slashes := initialSlashes p
    let newComps := (pySplitChar '/' p).foldl (normStep (slashes != 0)) []
    let out := List.replicate slashes '/' ++ joinChar '/' newComps
    if out = [] then (".".data) else out

/-- posixpath.abspath: a relative path is joined onto the process working
directory, then the result is normalized. -/
def pyAbspath (procCwd p : Str) : Str :=
  if startsWith ("/".data) p then normpath p else normpath (pyJoin procCwd p)

/-- UserInfo from simple_ftp_server.py: password and permission string
("r" or "rw"). -/
structure UserInfo where
  password : Str
  perm : Str
deriving Repr, DecidableEq

/-- FTPConfig from simple_ftp_server.py.  procCwd is the process working
directory consulted by os.path.abspath for relative inputs; the user table
is a lookup function. -/
structure FTPConfig where
  host : Str
  root : Str
  procCwd : Str
  users : Str → Option UserInfo

/-- FTPSession.to_real_path: map an FTP virtual path (resolved against the
session's current virtual directory when relative) to a real filesystem
path under the configured root; a result that escapes the root is rejected
back to the root itself. -/
def to_real_path (cfg : FTPConfig) (cwd path : Str) : Str :=
  let path1 := if startsWith ("/".data) path then path else pyJoin cwd path
  let norm0 := normpath path1
  let norm := if startsWith ("/".data) norm0 then norm0 else '/' :: norm0
  let real := pyAbspath cfg.procCwd (pyJoin cfg.root (norm.dropWhile (· == '/')))
  if startsWith cfg.root real then real else cfg.root

/-! ### Basic lemmas about the string utilities -/

theorem startsWith_append_self (a b : Str) : startsWith a (a ++ b) = true := by
  induction a with
  | nil => cases b <;> rfl
  | cons c cs ih => simp [startsWith, ih]

theorem startsWith_slash_iff (s : Str) :
    startsWith ("/".data) s = true ↔ ∃ t, s = '/' :: t := by
  cases s with
  | nil =>
    constructor
    · intro h; cases h
    · rintro ⟨t, ht⟩; cases ht
  | cons c t =>
    show (('/' == c) && startsWith [] t) = true ↔ _
    constructor
    · intro h
      have h2 : ('/' == c) = true ∧ startsWith [] t = true := by
        simpa [Bool.and_eq_true] using h
      have hc : '/' = c := eq_of_beq h2.1
      exact ⟨t, by rw [← hc]⟩
    · rintro ⟨u, hu⟩
      cases hu
      simp [startsWith]

theorem splitChar_ne_nil (sep : Char) (l : Str) : pySplitChar sep l ≠ [] := by
  induction l with
  | nil => simp [pySplitChar]
  | cons c rest ih =>
    simp only [pySplitChar]
    split
    · simp
    · simp

theorem splitChar_cons (sep c : Char) (rest : Str) :
    pySplitChar sep (c :: rest) =
      if c == sep then [] :: pySplitChar sep rest
      else (c :: (pySplitChar sep rest).headI) :: (pySplitChar sep rest).tail := rfl

theorem splitChar_append (sep : Char) (x y : Str) :
    pySplitChar sep (x ++ sep :: y) =
      pySplitChar sep x ++ pySplitChar sep y := by
  induction x with
  | nil =>
    show pySplitChar sep (sep :: y) = pySplitChar sep [] ++ pySplitChar sep y
    rw [splitChar_cons, if_pos (by simp)]
    rfl
  | cons c cs ih =>
    obtain ⟨w, ws, hsp⟩ : ∃ w ws, pySplitChar sep cs = w :: ws := by
      cases h : pySplitChar sep cs with
      | nil => exact absurd h (splitChar_ne_nil sep cs)
      | cons w ws => exact ⟨w, ws, rfl⟩
    have hx : (c :: cs) ++ sep :: y = c :: (cs ++ sep :: y) := rfl
    rw [hx, splitChar_cons, splitChar_cons, ih, hsp]
    by_cases hc : (c == sep) = true
    · rw [if_pos hc, if_pos hc]
      rfl
    · rw [if_neg hc, if_neg hc]
      rfl

theorem splitChar_no_sep (sep : Char) (l : Str) (h : sep ∉ l) :
    pySplitChar sep l = [l] := by
  induction l with
  | nil => rfl
  | cons c rest ih =>
    have hc : ¬ (c == sep) = true := by
      refine fun hcc => h ?_
      simp [eq_of_beq hcc]
    have hrest : sep ∉ rest := fun hm => h (by simp [hm])
    rw [splitChar_cons, ih hrest, if_neg hc]
    rfl

theorem mem_splitChar_no_sep (sep : Char) (l : Str) :
    ∀ w ∈ pySplitChar sep l, sep ∉ w := by
  induction l with
  | nil =>
    intro w hw
    have hww : w = [] := by simpa [pySplitChar] using hw
    simp [hww]
  | cons c rest ih =>
    intro w hw
    obtain ⟨w0, ws0, hsp⟩ : ∃ w0 ws0, pySplitChar sep rest = w0 :: ws0 := by
      cases h : pySplitChar sep rest with
      | nil => exact absurd h (splitChar_ne_nil sep rest)
      | cons a b => exact ⟨a, b, rfl⟩
    rw [splitChar_cons, hsp] at hw
    by_cases hc : (c == sep) = true
    · rw [if_pos hc] at hw
      rcases List.mem_cons.1 hw with hw1 | hw1
      · subst hw1; simp
      · exact ih w (by rw [hsp]; exact hw1)
    · rw [if_neg hc] at hw
      have hw' : w ∈ (c :: w0) :: ws0 := hw
      have hcc : c ≠ sep := fun hceq => hc (by simp [hceq])
      rcases List.mem_cons.1 hw' with hw1 | hw1
      · subst hw1
        intro hmem
        rcases List.mem_cons.1 hmem with h1 | h1
        · exact hcc h1.symm
        · exact ih w0 (by rw [hsp]; exact List.mem_cons_self _ _) h1
      · exact ih w (by rw [hsp]; exact List.mem_cons_of_mem _ hw1)

theorem splitChar_joinChar (sep : Char) (ws : List Str) (hne : ws ≠ [])
    (h : ∀ w ∈ ws, sep ∉ w) :
    pySplitChar sep (joinChar sep ws) = ws := by
  induction ws with
  | nil => exact absurd rfl hne
  | cons w rest ih =>
    cases rest with
    | nil => exact splitChar_no_sep sep w (h w (by simp))
    | cons w2 rest2 =>
      have hjoin : joinChar sep (w :: w2 :: rest2) =
          w ++ sep :: joinChar sep (w2 :: rest2) := rfl
      rw [hjoin, splitChar_append,
        splitChar_no_sep sep w (h w (by simp)),
        ih (by simp) (fun x hx => h x (by simp [hx]))]
      rfl

theorem joinChar_cons_cons (sep : Char) (w x : Str) (xs : List Str) :
    joinChar sep (w :: x :: xs) = w ++ sep :: joinChar sep (x :: xs) := rfl

theorem joinChar_append (sep : Char) (a b : List Str) (ha : a ≠ []) (hb : b ≠ []) :
    joinChar sep (a ++ b) = joinChar sep a ++ sep :: joinChar sep b := by
  induction a with
  | nil => exact absurd rfl ha
  | cons w ws ih =>
    cases ws with
    | nil =>
      cases b with
      | nil => exact absurd rfl hb
      | cons b0 bs => simp [joinChar_cons_cons, joinChar]
    | cons w2 ws2 =>
      have ih2 := ih (by simp)
      show joinChar sep (w :: ((w2 :: ws2) ++ b)) =
        joinChar sep (w :: w2 :: ws2) ++ sep :: joinChar sep b
      have hstep : joinChar sep (w :: ((w2 :: ws2) ++ b)) =
          w ++ sep :: joinChar sep ((w2 :: ws2) ++ b) := rfl
      rw [hstep, ih2, joinChar_cons_cons]
      simp

theorem joinChar_ne_nil (sep : Char) (rs : List Str) (hne : rs ≠ [])
    (h0 : rs.headI ≠ []) : joinChar sep rs ≠ [] := by
  cases rs with
  | nil => exact absurd rfl hne
  | cons r rest =>
    cases rest with
    | nil => simpa [joinChar] using h0
    | cons x xs =>
      simp only [joinChar_cons_cons]
      cases r with
      | nil => simp
      | cons c cs => simp

theorem joinChar_cons_head (sep ch : Char) (rt : Str) (rest : List Str) :
    ∃ u, joinChar sep ((ch :: rt) :: rest) = ch :: u := by
  cases rest with
  | nil => exact ⟨rt, rfl⟩
  | cons x xs => exact ⟨rt ++ sep :: joinChar sep (x :: xs), rfl⟩

theorem getLast?_append_right {α : Type} (a b : List α) (hb : b ≠ []) :
    (a ++ b).getLast? = b.getLast? := by
  induction a with
  | nil => simp
  | cons x xs ih =>
    cases hxb : xs ++ b with
    | nil =>
      rcases List.append_eq_nil.1 hxb with ⟨_, h2⟩
      exact absurd h2 hb
    | cons y ys =>
      rw [List.cons_append, hxb, List.getLast?_cons_cons, ← hxb, ih]

theorem getLast?_mem {α : Type} {l : List α} {a : α} (h : l.getLast? = some a) :
    a ∈ l := by
  induction l with
  | nil => simp at h
  | cons x xs ih =>
    cases xs with
    | nil =>
      simp only [List.getLast?_singleton, Option.some.injEq] at h
      simp [h]
    | cons y ys =>
      rw [List.getLast?_cons_cons] at h
      exact List.mem_cons_of_mem _ (ih h)

theorem getLast?_joinChar_ne_slash (rs : List Str) (hne : rs ≠ [])
    (h : ∀ r ∈ rs, r ≠ [] ∧ '/' ∉ r) :
    ∃ c, (joinChar '/' rs).getLast? = some c ∧ c ≠ '/' := by
  induction rs with
  | nil => exact absurd rfl hne
  | cons r rest ih =>
    cases rest with
    | nil =>
      have hr := h r (by simp)
      refine ⟨r.getLast hr.1, ?_, ?_⟩
      · show r.getLast? = _
        exact List.getLast?_eq_getLast r hr.1
      · intro hc
        exact hr.2 (hc ▸ List.getLast_mem hr.1)
    | cons r2 rest2 =>
      obtain ⟨c, hc, hcs⟩ := ih (by simp) (fun x hx => h x (by simp [hx]))
      refine ⟨c, ?_, hcs⟩
      rw [joinChar_cons_cons]
      have hjne : joinChar '/' (r2 :: rest2) ≠ [] := by
        refine joinChar_ne_nil '/' _ (by simp) ?_
        have := h r2 (by simp)
        simpa using this.1
      rw [getLast?_append_right r _ (by simp)]
      show (['/'] ++ joinChar '/' (r2 :: rest2)).getLast? = some c
      rw [getLast?_append_right _ _ hjne]
      exact hc

theorem dropWhile_replicate_append (p : Char → Bool) (k : Nat) (a : Char)
    (X : Str) (ha : p a = true) :
    (List.replicate k a ++ X).dropWhile p = X.dropWhile p := by
  induction k with
  | zero => simp
  | succ n ih => simp [List.replicate_succ, List.dropWhile_cons, ha, ih]

/-- A component of a normalized absolute path: nonempty, not a dot entry,
and free of separators. -/
def cleanComp (w : Str) : Prop :=
  w ≠ [] ∧ w ≠ (".".data) ∧ w ≠ ("..".data) ∧ '/' ∉ w

instance (w : Str) : Decidable (cleanComp w) := by
  unfold cleanComp
  infer_instance

theorem foldl_normStep_of_clean (f : Bool) (comps : List Str)
    (h : ∀ c ∈ comps, c ≠ [] ∧ c ≠ (".".data) ∧ c ≠ ("..".data))
    (acc : List Str) :
    comps.foldl (normStep f) acc = acc ++ comps := by
  induction comps generalizing acc with
  | nil => simp
  | cons c cs ih =>
    have hc := h c (by simp)
    have hstep : normStep f acc c = acc ++ [c] := by
      rw [normStep, if_neg (by simp [hc.1, hc.2.1]), if_pos (Or.inl hc.2.2)]
    rw [List.foldl_cons, hstep, ih (fun x hx => h x (by simp [hx]))]
    simp

theorem foldl_normStep_true_clean (comps : List Str)
    (h : ∀ w ∈ comps, '/' ∉ w) :
    ∀ acc, (∀ c ∈ acc, cleanComp c) →
      ∀ c ∈ comps.foldl (normStep true) acc, cleanComp c := by
  induction comps with
  | nil =>
    intro acc hacc c hc
    exact hacc c (by simpa using hc)
  | cons w ws ih =>
    intro acc hacc
    have hw : '/' ∉ w := h w (by simp)
    have hws : ∀ x ∈ ws, '/' ∉ x := fun x hx => h x (by simp [hx])
    rw [List.foldl_cons]
    refine ih hws (normStep true acc w) ?_
    intro c hc
    by_cases h1 : w = [] ∨ w = (".".data)
    · rw [normStep, if_pos h1] at hc
      exact hacc c hc
    · by_cases h2 : w ≠ ("..".data) ∨ ((true : Bool) = false ∧ acc = []) ∨
          (acc ≠ [] ∧ acc.getLast? = some ("..".data))
      · rw [normStep, if_neg h1, if_pos h2] at hc
        rcases List.mem_append.1 hc with hm | hm
        · exact hacc c hm
        · have hcw : c = w := by simpa using hm
          subst hcw
          push_neg at h1
          rcases h2 with h2 | ⟨hff, _⟩ | ⟨_, hlast⟩
          · exact ⟨h1.1, h1.2, h2, hw⟩
          · cases hff
          · exact absurd rfl (hacc _ (getLast?_mem hlast)).2.2.1
      · rw [normStep, if_neg h1, if_neg h2] at hc
        by_cases h3 : acc ≠ []
        · rw [if_pos h3] at hc
          exact hacc c (List.dropLast_subset _ hc)
        · rw [if_neg h3] at hc
          exact hacc c hc

theorem normpath_abs (p : Str) (hp : startsWith ("/".data) p = true) :
    ∃ cs, (∀ c ∈ cs, cleanComp c) ∧
      normpath p = List.replicate (initialSlashes p) '/' ++ joinChar '/' cs ∧
      1 ≤ initialSlashes p := by
  obtain ⟨t, rfl⟩ := (startsWith_slash_iff p).1 hp
  have hone : 1 ≤ initialSlashes ('/' :: t) := by
    rw [initialSlashes, if_pos hp]
    split <;> omega
  have hne : ('/' :: t : Str) ≠ [] := by simp
  refine ⟨(pySplitChar '/' ('/' :: t)).foldl (normStep true) [], ?_, ?_, hone⟩
  · exact foldl_normStep_true_clean _ (mem_splitChar_no_sep '/' _) [] (by simp)
  · have habs : (initialSlashes ('/' :: t) != 0) = true := by
      simp only [bne_iff_ne, Ne]
      omega
    have hout : List.replicate (initialSlashes ('/' :: t)) '/' ++
        joinChar '/' ((pySplitChar '/' ('/' :: t)).foldl (normStep true) []) ≠ [] := by
      obtain ⟨k, hk⟩ : ∃ k, initialSlashes ('/' :: t) = k + 1 :=
        ⟨initialSlashes ('/' :: t) - 1, by omega⟩
      rw [hk]
      simp [List.replicate_succ]
    simp only [normpath, if_neg hne, habs]
    rw [if_neg hout]

theorem initialSlashes_cons_cons (c : Char) (t : Str) (hc : c ≠ '/') :
    initialSlashes ('/' :: c :: t) = 1 := by
  have h2 : startsWith ("//".data) ('/' :: c :: t) = false := by
    show (('/' == '/') && (('/' == c) && startsWith [] t)) = false
    have hcc : ('/' == c) = false := beq_eq_false_iff_ne.2 (fun h => hc h.symm)
    simp [hcc]
  rw [initialSlashes, if_pos ((startsWith_slash_iff _).2 ⟨_, rfl⟩), h2]
  simp

/-- normpath is the identity on an absolute path made of clean components. -/
theorem normpath_clean_abs (ds : List Str) (hne : ds ≠ [])
    (h : ∀ d ∈ ds, cleanComp d) :
    normpath ('/' :: joinChar '/' ds) = '/' :: joinChar '/' ds := by
  obtain ⟨d0, ds', rfl⟩ : ∃ d0 ds', ds = d0 :: ds' := by
    cases ds with
    | nil => exact absurd rfl hne
    | cons a b => exact ⟨a, b, rfl⟩
  have hd0 := h d0 (by simp)
  obtain ⟨ch, dt, rfl⟩ : ∃ ch dt, d0 = ch :: dt := by
    cases d0 with
    | nil => exact absurd rfl hd0.1
    | cons a b => exact ⟨a, b, rfl⟩
  have hch : ch ≠ '/' := by
    intro hc
    exact hd0.2.2.2 (by rw [hc]; exact List.mem_cons_self _ _)
  obtain ⟨u, hu⟩ := joinChar_cons_head '/' ch dt ds'
  have hslash1 : initialSlashes ('/' :: joinChar '/' ((ch :: dt) :: ds')) = 1 := by
    rw [hu]
    exact initialSlashes_cons_cons ch u hch
  have hsplit : pySplitChar '/' ('/' :: joinChar '/' ((ch :: dt) :: ds')) =
      [] :: (ch :: dt) :: ds' := by
    rw [splitChar_cons, if_pos (by simp),
      splitChar_joinChar '/' _ (by simp) (fun w hw => (h w hw).2.2.2)]
  have hfold : (([] : Str) :: (ch :: dt) :: ds').foldl (normStep true) [] =
      (ch :: dt) :: ds' := by
    rw [List.foldl_cons]
    have h0 : normStep true [] [] = [] := by
      rw [normStep, if_pos (Or.inl rfl)]
    rw [h0, foldl_normStep_of_clean true _
      (fun c hc => ⟨(h c hc).1, (h c hc).2.1, (h c hc).2.2.1⟩) []]
    rfl
  have hne2 : ('/' :: joinChar '/' ((ch :: dt) :: ds') : Str) ≠ [] := by simp
  have hbne : (initialSlashes ('/' :: joinChar '/' ((ch :: dt) :: ds')) != 0) = true := by
    rw [hslash1]
    rfl
  simp only [normpath, if_neg hne2, hbne, hsplit, hfold, hslash1]
  rw [if_neg (by simp)]
  rw [show ((1 : Nat) != 0) = true from rfl, hfold]
  rfl

/-- normpath strips the trailing slash from a clean absolute directory path. -/
theorem normpath_root_slash (rs : List Str) (hrs : rs ≠ [])
    (hclean : ∀ r ∈ rs, cleanComp r) :
    normpath (('/' :: joinChar '/' rs) ++ ['/']) = '/' :: joinChar '/' rs := by
  obtain ⟨r0, rs', rfl⟩ : ∃ r0 rs', rs = r0 :: rs' := by
    cases rs with
    | nil => exact absurd rfl hrs
    | cons a b => exact ⟨a, b, rfl⟩
  have hr0 := hclean r0 (by simp)
  obtain ⟨ch, rt, rfl⟩ : ∃ ch rt, r0 = ch :: rt := by
    cases r0 with
    | nil => exact absurd rfl hr0.1
    | cons a b => exact ⟨a, b, rfl⟩
  have hch : ch ≠ '/' := by
    intro hc
    exact hr0.2.2.2 (by rw [hc]; exact List.mem_cons_self _ _)
  obtain ⟨u, hu⟩ := joinChar_cons_head '/' ch rt rs'
  have hp : ((('/' :: joinChar '/' ((ch :: rt) :: rs')) ++ ['/'] : Str)) =
      '/' :: (joinChar '/' ((ch :: rt) :: rs') ++ ['/']) := rfl
  rw [hp]
  have hslash1 : initialSlashes ('/' :: (joinChar '/' ((ch :: rt) :: rs') ++ ['/'])) = 1 := by
    rw [hu]
    exact initialSlashes_cons_cons ch (u ++ ['/']) hch
  have hsplit : pySplitChar '/' ('/' :: (joinChar '/' ((ch :: rt) :: rs') ++ ['/'])) =
      [] :: (((ch :: rt) :: rs') ++ [[]]) := by
    rw [splitChar_cons, if_pos (by simp)]
    rw [show (joinChar '/' ((ch :: rt) :: rs') ++ ['/'] : Str) =
      joinChar '/' ((ch :: rt) :: rs') ++ '/' :: [] from rfl]
    rw [splitChar_append,
      splitChar_joinChar '/' _ (by simp) (fun w hw => (hclean w hw).2.2.2)]
    rfl
  have hfold : (([] : Str) :: (((ch :: rt) :: rs') ++ [[]])).foldl (normStep true) [] =
      (ch :: rt) :: rs' := by
    rw [List.foldl_cons]
    have h0 : normStep true [] [] = [] := by
      rw [normStep, if_pos (Or.inl rfl)]
    rw [h0, List.foldl_append]
    rw [foldl_normStep_of_clean true _
      (fun c hc => ⟨(hclean c hc).1, (hclean c hc).2.1, (hclean c hc).2.2.1⟩) []]
    show List.foldl (normStep true) ((ch :: rt) :: rs') [[]] = (ch :: rt) :: rs'
    rw [List.foldl_cons, List.foldl_nil, normStep, if_pos (Or.inl rfl)]
  have hne2 : ('/' :: (joinChar '/' ((ch :: rt) :: rs') ++ ['/']) : Str) ≠ [] := by simp
  have hbne : (initialSlashes ('/' :: (joinChar '/' ((ch :: rt) :: rs') ++ ['/'])) != 0) = true := by
    rw [hslash1]
    rfl
  simp only [normpath, if_neg hne2, hbne, hsplit, hfold, hslash1]
  rw [if_neg (by simp)]
  rw [show ((1 : Nat) != 0) = true from rfl, hfold]
  rfl

/-- C1: for every server session (whose current virtual directory is rooted
at "/", as the session invariant guarantees) and every virtual path
argument, including paths with arbitrary dotdot sequences, to_real_path
returns a real path inside the configured rootDirectory: either the root
itself (the rejection case and the root-resolving case) or a path strictly
below the root. -/
theorem C1_to_real_path_contained (cfg : FTPConfig) (rs : List Str)
    (hroot : cfg.root = '/' :: joinChar '/' rs) (hrs : rs ≠ [])
    (hclean : ∀ r ∈ rs, cleanComp r)
    (cwd path : Str) (hcwd : startsWith ("/".data) cwd = true) :
    to_real_path cfg cwd path = cfg.root ∨
      startsWith (cfg.root ++ ['/']) (to_real_path cfg cwd path) = true := by
  obtain ⟨lc, hlc, hlcne⟩ : ∃ c, cfg.root.getLast? = some c ∧ c ≠ '/' := by
    rw [hroot]
    show ∃ c, (['/'] ++ joinChar '/' rs).getLast? = some c ∧ c ≠ '/'
    have hjne : joinChar '/' rs ≠ [] := by
      refine joinChar_ne_nil '/' rs hrs ?_
      cases rs with
      | nil => exact absurd rfl hrs
      | cons a b =>
        have := (hclean a (by simp)).1
        simpa using this
    rw [getLast?_append_right _ _ hjne]
    exact getLast?_joinChar_ne_slash rs hrs
      (fun r hr => ⟨(hclean r hr).1, (hclean r hr).2.2.2⟩)
  have hrootCond : ¬ (cfg.root = [] ∨ cfg.root.getLast? = some '/') := by
    push_neg
    refine ⟨by rw [hroot]; simp, ?_⟩
    rw [hlc]
    simp [hlcne]
  have hnotabs : ∀ csx : List Str, (∀ c ∈ csx, cleanComp c) →
      ¬ startsWith ("/".data) (joinChar '/' csx) = true := by
    intro csx hcl hcon
    obtain ⟨t, ht⟩ := (startsWith_slash_iff _).1 hcon
    cases csx with
    | nil => simp [joinChar] at ht
    | cons c0 cs' =>
      have hc0 := hcl c0 (by simp)
      obtain ⟨ch0, c0t, rfl⟩ : ∃ ch0 c0t, c0 = ch0 :: c0t := by
        cases c0 with
        | nil => exact absurd rfl hc0.1
        | cons a b => exact ⟨a, b, rfl⟩
      obtain ⟨u, hu⟩ := joinChar_cons_head '/' ch0 c0t cs'
      rw [hu] at ht
      have hch : ch0 = '/' := by
        injection ht with h1 _
      exact hc0.2.2.2 (by rw [← hch]; exact List.mem_cons_self _ _)
  simp only [to_real_path]
  set path1 := (if startsWith ("/".data) path then path else pyJoin cwd path)
    with hp1def
  have hp1 : startsWith ("/".data) path1 = true := by
    rw [hp1def]
    by_cases hpp : startsWith ("/".data) path = true
    · rw [if_pos hpp]
      exact hpp
    · rw [if_neg hpp]
      obtain ⟨cw, rfl⟩ := (startsWith_slash_iff cwd).1 hcwd
      rw [pyJoin, if_neg hpp]
      by_cases hjc : ('/' :: cw : Str) = [] ∨ ('/' :: cw : Str).getLast? = some '/'
      · rw [if_pos hjc]
        exact (startsWith_slash_iff _).2 ⟨cw ++ path, by simp⟩
      · rw [if_neg hjc]
        exact (startsWith_slash_iff _).2 ⟨cw ++ '/' :: path, by simp⟩
  obtain ⟨cs, hcsClean, hnormEq, hk1⟩ := normpath_abs path1 hp1
  have hnormAbs : startsWith ("/".data) (normpath path1) = true := by
    rw [hnormEq]
    obtain ⟨k, hk⟩ : ∃ k, initialSlashes path1 = k + 1 :=
      ⟨initialSlashes path1 - 1, by omega⟩
    rw [hk, List.replicate_succ]
    exact (startsWith_slash_iff _).2 ⟨List.replicate k '/' ++ joinChar '/' cs, by simp⟩
  have hstrip : (normpath path1).dropWhile (· == '/') = joinChar '/' cs := by
    rw [hnormEq, dropWhile_replicate_append _ _ _ _ (by simp)]
    cases cs with
    | nil => rfl
    | cons c0 cs' =>
      have hc0 := hcsClean c0 (by simp)
      obtain ⟨ch0, c0t, rfl⟩ : ∃ ch0 c0t, c0 = ch0 :: c0t := by
        cases c0 with
        | nil => exact absurd rfl hc0.1
        | cons a b => exact ⟨a, b, rfl⟩
      obtain ⟨u, hu⟩ := joinChar_cons_head '/' ch0 c0t cs'
      have hch : ch0 ≠ '/' := by
        intro hc
        exact hc0.2.2.2 (by rw [hc]; exact List.mem_cons_self _ _)
      rw [hu, List.dropWhile_cons, if_neg (by simp [hch])]
  have hjoin : pyJoin cfg.root (joinChar '/' cs) = cfg.root ++ '/' :: joinChar '/' cs := by
    rw [pyJoin, if_neg (hnotabs cs hcsClean), if_neg hrootCond]
  have habspos : startsWith ("/".data) (cfg.root ++ '/' :: joinChar '/' cs) = true := by
    refine (startsWith_slash_iff _).2 ⟨joinChar '/' rs ++ '/' :: joinChar '/' cs, ?_⟩
    rw [hroot]
    rfl
  rw [if_pos hnormAbs, hstrip, hjoin]
  simp only [pyAbspath]
  rw [if_pos habspos]
  cases cs with
  | nil =>
    have hr : normpath (cfg.root ++ '/' :: joinChar '/' ([] : List Str)) = cfg.root := by
      show normpath (cfg.root ++ ['/']) = cfg.root
      rw [hroot]
      exact normpath_root_slash rs hrs hclean
    rw [hr]
    left
    have hww : startsWith cfg.root cfg.root = true := by
      simpa using startsWith_append_self cfg.root []
    rw [if_pos hww]
  | cons c0 cs' =>
    have hcat : cfg.root ++ '/' :: joinChar '/' (c0 :: cs') =
        '/' :: joinChar '/' (rs ++ c0 :: cs') := by
      rw [hroot, joinChar_append '/' rs (c0 :: cs') hrs (by simp)]
      rfl
    have hval : normpath (cfg.root ++ '/' :: joinChar '/' (c0 :: cs')) =
        cfg.root ++ '/' :: joinChar '/' (c0 :: cs') := by
      rw [hcat]
      refine normpath_clean_abs (rs ++ c0 :: cs') (by simp) ?_
      intro d hd
      rcases List.mem_append.1 hd with h1 | h1
      · exact hclean d h1
      · exact hcsClean d h1
    rw [hval]
    have hguard : startsWith cfg.root (cfg.root ++ '/' :: joinChar '/' (c0 :: cs')) = true :=
      startsWith_append_self _ _
    rw [if_pos hguard]
    right
    have hsplit2 : cfg.root ++ '/' :: joinChar '/' (c0 :: cs') =
        (cfg.root ++ ['/']) ++ joinChar '/' (c0 :: cs') := by simp
    rw [hsplit2]
    exact startsWith_append_self _ _

/-- The default user table of FTPConfig: one read-write and one read-only
user. -/
def defaultUsers : Str → Option UserInfo := fun u =>
  if u = ("user".data) then some ⟨"123456".data, "rw".data⟩
  else if u = ("guest".data) then some ⟨"guest".data, "r".data⟩
  else none

/-- A concrete configuration used by the closed witnesses below. -/
def exampleCfg : FTPConfig :=
  { host := "127.0.0.1".data
    root := "/srv/ftp".data
    procCwd := "/".data
    users := defaultUsers }

/-- Concrete instance of C1 at a virtual path that tries to escape the
root with dotdot sequences. -/
theorem C1_to_real_path_contained_witness :
    to_real_path exampleCfg ("/".data) ("../../etc/passwd".data) = exampleCfg.root ∨
      startsWith (exampleCfg.root ++ ['/'])
        (to_real_path exampleCfg ("/".data) ("../../etc/passwd".data)) = true :=
  C1_to_real_path_contained exampleCfg ["srv".data, "ftp".data] (by decide)
    (by decide) (by decide) ("/".data) ("../../etc/passwd".data) (by decide)

/-! ### Server session model (simple_ftp_server.py) -/

/-- A control-channel reply: numeric code and text. -/
structure Reply where
  code : Nat
  text : Str
deriving Repr, DecidableEq

/-- A filesystem or data-channel operation attempted by a handler. -/
inductive Eff where
  | mkdirs (p : Str)
  | rmdir (p : Str)
  | remove (p : Str)
  | renameFile (src dst : Str)
  | writeFile (p : Str)
  | readFile (p : Str)
  | sendData (lines : List Str)
deriving Repr, DecidableEq

/-- The mutable per-connection state of FTPSession. -/
structure Session where
  logged_in : Bool
  username : Option Str
  cwd : Str
  type : Str
  pasv_listener : Bool
  rename_from : Option Str
deriving Repr, DecidableEq

/-- The fresh session state created for a new connection. -/
def initSession : Session :=
  { logged_in := false
    username := none
    cwd := "/".data
    type := "I".data
    pasv_listener := false
    rename_from := none }

/-- Filesystem oracles: the outcomes the operating system would give for
each query or attempted operation while one command is handled. -/
structure FS where
  isdir : Str → Bool
  isfile : Str → Bool
  pexists : Str → Bool
  listdir : Str → Option (List Str)
  statOk : Str → Bool
  size : Str → Nat
  mkdirsOk : Str → Bool
  rmdirOk : Str → Bool
  removeOk : Str → Bool
  renameOk : Str → Str → Bool
  readOk : Str → Bool
  storeOk : Str → Bool

/-- Socket oracles for passive-mode data connections: the control-socket
address, the ephemeral port the listener would get, and whether bind and
accept succeed. -/
structure Env where
  sockHost : Str
  port : Nat
  bindOk : Bool
  acceptOk : Bool

/-- Result of one command handler: successor session state, the replies it
sends in order, and the filesystem operations it attempts in order. -/
structure HRes where
  sess : Session
  replies : List Reply
  effs : List Eff
deriving Repr, DecidableEq

/-- FTPSession.user_perm. -/
def user_perm (cfg : FTPConfig) (s : Session) : Str :=
  if ¬ s.logged_in ∨ s.username = none then []
  else
    match s.username with
    | none => []
    | some u =>
      match cfg.users u with
      | some info => info.perm
      | none => []

/-- The test of FTPSession.ensure_write_perm ("w" in the permission
string); the 550 reply it sends on failure is emitted at each call site
below, as in the source. -/
def write_perm_ok (cfg : FTPConfig) (s : Session) : Bool :=
  (user_perm cfg s).contains 'w'

/-- The 550 reply sent by ensure_write_perm. -/
def permDeniedReply : Reply := ⟨550, "Permission denied.".data⟩

/-- The 530 reply sent by every handler that requires a login. -/
def loginReply : Reply := ⟨530, "Please login with USER and PASS.".data⟩

/-- FTPSession.handle_USER. -/
def handle_USER (cfg : FTPConfig) (s : Session) (arg : Str) : HRes :=
  if (cfg.users arg).isSome then
    ⟨{ s with username := some arg },
      [⟨331, "User name okay, need password.".data⟩], []⟩
  else
    ⟨s, [⟨530, "User not found.".data⟩], []⟩

/-- FTPSession.handle_PASS. -/
def handle_PASS (cfg : FTPConfig) (s : Session) (arg : Str) : HRes :=
  match s.username with
  | none => ⟨s, [⟨503, "Login with USER first.".data⟩], []⟩
  | some u =>
    match cfg.users u with
    | some info =>
      if info.password = arg then
        ⟨{ s with logged_in := true }, [⟨230, "User logged in, proceed.".data⟩], []⟩
      else
        ⟨{ s with logged_in := false }, [⟨530, "Login incorrect.".data⟩], []⟩
    | none => ⟨{ s with logged_in := false }, [⟨530, "Login incorrect.".data⟩], []⟩

/-- FTPSession.handle_PWD. -/
def handle_PWD (s : Session) : HRes :=
  if ¬ s.logged_in then ⟨s, [loginReply], []⟩
  else ⟨s, [⟨257, '"' :: s.cwd ++ "\" is current directory".data⟩], []⟩

/-- Length of the common elementwise front of two component lists
(os.path.commonprefix on the two lists). -/
def commonLen : List Str → List Str → Nat
  | a :: as, b :: bs => if a = b then commonLen as bs + 1 else 0
  | _, _ => 0

/-- posixpath.relpath(path, start).  The final join of the component list
is a plain slash join because relative components never begin with a
slash. -/
def pyRelpath (procCwd pathArg startArg : Str) : Str :=
  let pa := pyAbspath procCwd pathArg
  let sa := pyAbspath procCwd startArg
  let pl := (pySplitChar '/' pa).filter (fun x => !x.isEmpty)
  let sl := (pySplitChar '/' sa).filter (fun x => !x.isEmpty)
  let i := commonLen sl pl
  let rel := List.replicate (sl.length - i) ("..".data) ++ pl.drop i
  if rel = [] then (".".data) else joinChar '/' rel

/-- FTPSession.handle_CWD.  The source applies rel.replace(os.sep, "/"),
the identity on POSIX where os.sep is the slash. -/
def handle_CWD (cfg : FTPConfig) (fs : FS) (s : Session) (arg : Str) : HRes :=
  if ¬ s.logged_in then ⟨s, [loginReply], []⟩
  else
    let arg1 := if arg = [] then ("/".data) else arg
    let new_real := to_real_path cfg s.cwd arg1
    if fs.isdir new_real then
      let rel := pyRelpath cfg.procCwd new_real cfg.root
      let newCwd := if rel = (".".data) then ("/".data) else '/' :: rel
      ⟨{ s with cwd := newCwd }, [⟨250, "Directory successfully changed.".data⟩], []⟩
    else
      ⟨s, [⟨550, "Failed to change directory.".data⟩], []⟩

/-- Python str.upper restricted to ASCII (all command and type text here
is ASCII). -/
def pyUpper (s : Str) : Str := s.map Char.toUpper

/-- FTPSession.handle_TYPE: no login check in the source. -/
def handle_TYPE (s : Session) (arg : Str) : HRes :=
  let t := if pyUpper arg = [] then ("I".data) else pyUpper arg
  ⟨{ s with type := t }, [⟨200, "Type set to ".data ++ t ++ ".".data⟩], []⟩

/-- A Nat rendered in decimal, as Python str applied to an int. -/
def natStr (n : Nat) : Str := (Nat.repr n).data

/-- The 227 reply text built by handle_PASV from the four host-address
tokens and the data port. -/
def pasv227 (a b c d : Str) (port : Nat) : Str :=
  "Entering Passive Mode (".data ++ a ++ [','] ++ b ++ [','] ++ c ++ [','] ++ d
    ++ [','] ++ natStr (port / 256) ++ [','] ++ natStr (port % 256) ++ ").".data

/-- FTPSession.handle_PASV: no login check in the source.  Returns none
when the chosen host string and the control-socket address both fail to
split into four dot-separated tokens; in that case the source raises out
of the handler and the session thread dies. -/
def handle_PASV (cfg : FTPConfig) (env : Env) (s : Session) : Option HRes :=
  let host := if cfg.host ≠ ("0.0.0.0".data) then cfg.host else env.sockHost
  let s2 := { s with pasv_listener := true }
  if ¬ env.bindOk then
    some ⟨s2, [⟨421, "Cannot open passive listener".data⟩], []⟩
  else
    match pySplitChar '.' host with
    | [a, b, c, d] => some ⟨s2, [⟨227, pasv227 a b c d env.port⟩], []⟩
    | _ =>
      match pySplitChar '.' env.sockHost with
      | [a, b, c, d] => some ⟨s2, [⟨227, pasv227 a b c d env.port⟩], []⟩
      | _ => none

/-- FTPSession.accept_data_connection: whether a data connection was
obtained, plus the updated session (an existing listener is always closed)
and any 425 reply.  The source reply on a failed accept carries an
apostrophe, elided here. -/
def accept_data_connection (env : Env) (s : Session) : Bool × Session × List Reply :=
  if ¬ s.pasv_listener then
    (false, s, [⟨425, "Use PASV first.".data⟩])
  else if env.acceptOk then
    (true, { s with pasv_listener := false }, [])
  else
    (false, { s with pasv_listener := false },
      [⟨425, "Cant open data connection.".data⟩])

/-- One pseudo-ls line of handle_LIST for one directory entry. -/
def listLine (fs : FS) (dir name : Str) : Str :=
  let full := pyJoin dir name
  if fs.statOk full then
    if fs.isdir full then
      "drwxr-xr-x 1 owner group 0 Jan 01 00:00 ".data ++ name ++ "\r\n".data
    else
      "-rw-r--r-- 1 owner group ".data ++ natStr (fs.size full) ++
        " Jan 01 00:00 ".data ++ name ++ "\r\n".data
  else
    "-rw-r--r-- 1 owner group 0 Jan 01 00:00 ".data ++ name ++ "\r\n".data

/-- FTPSession.handle_LIST.  A data-socket send failure in the source only
truncates the transmitted listing; the attempted listing is recorded as a
single sendData effect. -/
def handle_LIST (cfg : FTPConfig) (fs : FS) (env : Env) (s : Session)
    (arg : Str) : HRes :=
  if ¬ s.logged_in then ⟨s, [loginReply], []⟩
  else
    let acc := accept_data_connection env s
    if ¬ acc.1 then ⟨acc.2.1, acc.2.2, []⟩
    else
      let real_dir := to_real_path cfg s.cwd (if arg = [] then s.cwd else arg)
      let entries := (fs.listdir real_dir).getD []
      ⟨acc.2.1, acc.2.2 ++ [⟨150, "Here comes the directory listing.".data⟩,
        ⟨226, "Directory send OK.".data⟩],
        [.sendData (entries.map (listLine fs real_dir))]⟩

/-- FTPSession.handle_RETR. -/
def handle_RETR (cfg : FTPConfig) (fs : FS) (env : Env) (s : Session)
    (arg : Str) : HRes :=
  if ¬ s.logged_in then ⟨s, [loginReply], []⟩
  else
    let real_path := to_real_path cfg s.cwd arg
    if ¬ fs.isfile real_path then ⟨s, [⟨550, "File not found.".data⟩], []⟩
    else
      let acc := accept_data_connection env s
      if ¬ acc.1 then ⟨acc.2.1, acc.2.2, []⟩
      else if fs.readOk real_path then
        ⟨acc.2.1, acc.2.2 ++ [⟨150, "Opening binary mode data connection.".data⟩,
          ⟨226, "Transfer complete.".data⟩], [.readFile real_path]⟩
      else
        ⟨acc.2.1, acc.2.2 ++ [⟨150, "Opening binary mode data connection.".data⟩,
          ⟨550, "Failed to read file.".data⟩], [.readFile real_path]⟩

/-- Index of the last occurrence of a character (Python str.rfind for a
one-character needle). -/
def rfindChar (c : Char) : Str → Option Nat
  | [] => none
  | x :: xs =>
    match rfindChar c xs with
    | some i => some (i + 1)
    | none => if x == c then some 0 else none

/-- Python str.rstrip(chars) for an explicit strip set. -/
def pyRstripSet (chars : Str) (s : Str) : Str :=
  ((s.reverse).dropWhile (fun c => chars.contains c)).reverse

/-- posixpath.dirname. -/
def pyDirname (p : Str) : Str :=
  let i := match rfindChar '/' p with
    | none => 0
    | some k => k + 1
  let head := p.take i
  if head ≠ [] ∧ ¬ head.all (· == '/') then pyRstripSet ("/".data) head
  else head

/-- FTPSession.handle_STOR.  The makedirs on the parent directory happens
before the data connection is accepted, as in the source. -/
def handle_STOR (cfg : FTPConfig) (fs : FS) (env : Env) (s : Session)
    (arg : Str) : HRes :=
  if ¬ s.logged_in then ⟨s, [loginReply], []⟩
  else if ¬ write_perm_ok cfg s then ⟨s, [permDeniedReply], []⟩
  else
    let real_path := to_real_path cfg s.cwd arg
    let effs0 : List Eff := [.mkdirs (pyDirname real_path)]
    let acc := accept_data_connection env s
    if ¬ acc.1 then ⟨acc.2.1, acc.2.2, effs0⟩
    else if fs.storeOk real_path then
      ⟨acc.2.1, acc.2.2 ++
        [⟨150, "Opening binary mode data connection for file upload.".data⟩,
         ⟨226, "Transfer complete.".data⟩], effs0 ++ [.writeFile real_path]⟩
    else
      ⟨acc.2.1, acc.2.2 ++
        [⟨150, "Opening binary mode data connection for file upload.".data⟩,
         ⟨550, "Failed to store file.".data⟩], effs0 ++ [.writeFile real_path]⟩

/-- FTPSession.handle_MKD. -/
def handle_MKD (cfg : FTPConfig) (fs : FS) (s : Session) (arg : Str) : HRes :=
  if ¬ s.logged_in then ⟨s, [loginReply], []⟩
  else if ¬ write_perm_ok cfg s then ⟨s, [permDeniedReply], []⟩
  else
    let real_path := to_real_path cfg s.cwd arg
    if fs.mkdirsOk real_path then
      ⟨s, [⟨257, '"' :: arg ++ "\" directory created.".data⟩], [.mkdirs real_path]⟩
    else
      ⟨s, [⟨550, "Create directory failed.".data⟩], [.mkdirs real_path]⟩

/-- FTPSession.handle_RMD. -/
def handle_RMD (cfg : FTPConfig) (fs : FS) (s : Session) (arg : Str) : HRes :=
  if ¬ s.logged_in then ⟨s, [loginReply], []⟩
  else if ¬ write_perm_ok cfg s then ⟨s, [permDeniedReply], []⟩
  else
    let real_path := to_real_path cfg s.cwd arg
    if fs.rmdirOk real_path then
      ⟨s, [⟨250, "Remove directory operation successful.".data⟩], [.rmdir real_path]⟩
    else
      ⟨s, [⟨550, "Remove directory failed.".data⟩], [.rmdir real_path]⟩

/-- FTPSession.handle_DELE. -/
def handle_DELE (cfg : FTPConfig) (fs : FS) (s : Session) (arg : Str) : HRes :=
  if ¬ s.logged_in then ⟨s, [loginReply], []⟩
  else if ¬ write_perm_ok cfg s then ⟨s, [permDeniedReply], []⟩
  else
    let real_path := to_real_path cfg s.cwd arg
    if fs.removeOk real_path then
      ⟨s, [⟨250, "Delete operation successful.".data⟩], [.remove real_path]⟩
    else
      ⟨s, [⟨550, "Delete failed.".data⟩], [.remove real_path]⟩

/-- FTPSession.handle_RNFR: the pending source is recorded, then cleared
again when it does not exist. -/
def handle_RNFR (cfg : FTPConfig) (fs : FS) (s : Session) (arg : Str) : HRes :=
  if ¬ s.logged_in then ⟨s, [loginReply], []⟩
  else if ¬ write_perm_ok cfg s then ⟨s, [permDeniedReply], []⟩
  else
    let rf := to_real_path cfg s.cwd arg
    if ¬ fs.pexists rf then
      ⟨{ s with rename_from := none }, [⟨550, "File not found.".data⟩], []⟩
    else
      ⟨{ s with rename_from := some rf },
        [⟨350, "File exists, ready for destination name.".data⟩], []⟩

/-- FTPSession.handle_RNTO: no login check in the source.  The source
tests the pending source path for truthiness; to_real_path never returns
an empty string, so the Option models it exactly. -/
def handle_RNTO (cfg : FTPConfig) (fs : FS) (s : Session) (arg : Str) : HRes :=
  match s.rename_from with
  | none => ⟨s, [⟨503, "Bad sequence of commands.".data⟩], []⟩
  | some src =>
    let real_to := to_real_path cfg s.cwd arg
    if fs.renameOk src real_to then
      ⟨{ s with rename_from := none }, [⟨250, "Rename successful.".data⟩],
        [.renameFile src real_to]⟩
    else
      ⟨{ s with rename_from := none }, [⟨550, "Rename failed.".data⟩],
        [.renameFile src real_to]⟩

/-- One iteration of FTPSession.serve's dispatch loop on a nonblank
command line: the handler result plus whether the loop continues (false
after QUIT).  A blank line is skipped.  none models an uncaught handler
exception (possible only in handle_PASV), which ends the session
thread. -/
def serveStep (cfg : FTPConfig) (fs : FS) (env : Env) (s : Session)
    (cmdline : Str) : Option (HRes × Bool) :=
  if cmdline = [] then some (⟨s, [], []⟩, true)
  else
    let parts := pySplit1 ' ' cmdline
    let command := pyUpper parts.1
    let arg := parts.2.getD []
    if command = ("USER".data) then some (handle_USER cfg s arg, true)
    else if command = ("PASS".data) then some (handle_PASS cfg s arg, true)
    else if command = ("PWD".data) then some (handle_PWD s, true)
    else if command = ("CWD".data) then some (handle_CWD cfg fs s arg, true)
    else if command = ("TYPE".data) then some (handle_TYPE s arg, true)
    else if command = ("PASV".data) then (handle_PASV cfg env s).map (fun r => (r, true))
    else if command = ("LIST".data) then some (handle_LIST cfg fs env s arg, true)
    else if command = ("RETR".data) then some (handle_RETR cfg fs env s arg, true)
    else if command = ("STOR".data) then some (handle_STOR cfg fs env s arg, true)
    else if command = ("MKD".data) then some (handle_MKD cfg fs s arg, true)
    else if command = ("RMD".data) then some (handle_RMD cfg fs s arg, true)
    else if command = ("DELE".data) then some (handle_DELE cfg fs s arg, true)
    else if command = ("RNFR".data) then some (handle_RNFR cfg fs s arg, true)
    else if command = ("RNTO".data) then some (handle_RNTO cfg fs s arg, true)
    else if command = ("QUIT".data) then some (⟨s, [⟨221, "Goodbye.".data⟩], []⟩, false)
    else some (⟨s, [⟨502, "Command not implemented.".data⟩], []⟩, true)

/-- The first line (through the newline, when present) that readline on
the buffered control stream returns. -/
def readLine1 : Str → Str
  | [] => []
  | c :: rest => if c = '\n' then [c] else c :: readLine1 rest

/-- FTPSession.read_command applied to the raw bytes on the wire: read one
line and strip the trailing CR/LF characters. -/
def read_command (wire : Str) : Str := pyRstripSet ("\r\n".data) (readLine1 wire)

/-- An oracle where every filesystem query and operation fails and no
entries exist. -/
def emptyFS : FS :=
  { isdir := fun _ => false
    isfile := fun _ => false
    pexists := fun _ => false
    listdir := fun _ => none
    statOk := fun _ => false
    size := fun _ => 0
    mkdirsOk := fun _ => false
    rmdirOk := fun _ => false
    removeOk := fun _ => false
    renameOk := fun _ _ => false
    readOk := fun _ => false
    storeOk := fun _ => false }

/-- A concrete socket environment used by the closed witnesses below. -/
def exampleEnv : Env :=
  { sockHost := "127.0.0.1".data
    port := 50000
    bindOk := true
    acceptOk := true }

/-- Session state after a successful login as the read-write user. -/
def authedSession : Session :=
  { initSession with logged_in := true, username := some ("user".data) }

/-- Session state after a successful login as the read-only user. -/
def guestSession : Session :=
  { initSession with logged_in := true, username := some ("guest".data) }

theorem pySplit1_no_sep_append (sep : Char) (c a : Str) (h : sep ∉ c) :
    pySplit1 sep (c ++ sep :: a) = (c, some a) := by
  induction c with
  | nil => simp [pySplit1]
  | cons x xs ih =>
    have hx : (x == sep) = false :=
      beq_eq_false_iff_ne.2 (fun he => h (by simp [he]))
    have hrest : sep ∉ xs := fun hm => h (by simp [hm])
    simp [pySplit1, hx, ih hrest]

/-- C2 counterexample: an unauthenticated session's TYPE command is
answered 200, not 530, because handle_TYPE performs no login check. -/
theorem C2_counterexample :
    serveStep exampleCfg emptyFS exampleEnv initSession ("TYPE I".data) =
      some (⟨{ initSession with type := ("I".data) },
        [⟨200, "Type set to I.".data⟩], []⟩, true) ∧ (200 : Nat) ≠ 530 := by
  constructor
  · decide
  · decide

/-- C2 amended: when the session is not authenticated, each of the nine
commands PWD, CWD, LIST, RETR, STOR, MKD, RMD, DELE and RNFR is answered
by the single reply 530 with no session-state change and no filesystem
effect; TYPE, PASV and RNTO are handled without a login check, and
unrecognized commands receive 502. -/
theorem C2_unauthenticated_530 (cfg : FTPConfig) (fs : FS) (env : Env)
    (s : Session) (arg : Str) (hlog : s.logged_in = false) :
    handle_PWD s = ⟨s, [loginReply], []⟩ ∧
    handle_CWD cfg fs s arg = ⟨s, [loginReply], []⟩ ∧
    handle_LIST cfg fs env s arg = ⟨s, [loginReply], []⟩ ∧
    handle_RETR cfg fs env s arg = ⟨s, [loginReply], []⟩ ∧
    handle_STOR cfg fs env s arg = ⟨s, [loginReply], []⟩ ∧
    handle_MKD cfg fs s arg = ⟨s, [loginReply], []⟩ ∧
    handle_RMD cfg fs s arg = ⟨s, [loginReply], []⟩ ∧
    handle_DELE cfg fs s arg = ⟨s, [loginReply], []⟩ ∧
    handle_RNFR cfg fs s arg = ⟨s, [loginReply], []⟩ := by
  refine ⟨?_, ?_, ?_, ?_, ?_, ?_, ?_, ?_, ?_⟩ <;>
    simp [handle_PWD, handle_CWD, handle_LIST, handle_RETR, handle_STOR,
      handle_MKD, handle_RMD, handle_DELE, handle_RNFR, hlog]

/-- Concrete instance of the amended C2 at the PWD command. -/
theorem C2_unauthenticated_530_witness :
    handle_PWD initSession = ⟨initSession, [loginReply], []⟩ :=
  (C2_unauthenticated_530 exampleCfg emptyFS exampleEnv initSession []
    rfl).1

/-- C3: an RNTO without a pending rename source is answered 503 with no
other effect; after any RNTO attempt the pending source is cleared, so a
following bare RNTO is again answered 503. -/
theorem C3_rnto_sequence (cfg : FTPConfig) (fs fs2 : FS) (s : Session)
    (arg arg2 : Str) :
    (s.rename_from = none →
      handle_RNTO cfg fs s arg =
        ⟨s, [⟨503, "Bad sequence of commands.".data⟩], []⟩) ∧
    (handle_RNTO cfg fs s arg).sess.rename_from = none ∧
    (handle_RNTO cfg fs2 (handle_RNTO cfg fs s arg).sess arg2).replies =
      [⟨503, "Bad sequence of commands.".data⟩] := by
  cases hrf : s.rename_from with
  | none =>
    refine ⟨fun _ => by simp [handle_RNTO, hrf], ?_, ?_⟩
    · simp [handle_RNTO, hrf]
    · simp [handle_RNTO, hrf]
  | some src =>
    refine ⟨?_, ?_, ?_⟩
    · intro hc
      cases hc
    · by_cases hok : fs.renameOk src (to_real_path cfg s.cwd arg) = true
      · simp [handle_RNTO, hrf, hok]
      · simp [handle_RNTO, hrf, hok]
    · by_cases hok : fs.renameOk src (to_real_path cfg s.cwd arg) = true
      · simp [handle_RNTO, hrf, hok]
      · simp [handle_RNTO, hrf, hok]

/-- Concrete instance of C3: a bare RNTO on a fresh session yields 503. -/
theorem C3_rnto_sequence_witness :
    handle_RNTO exampleCfg emptyFS initSession ("b.txt".data) =
      ⟨initSession, [⟨503, "Bad sequence of commands.".data⟩], []⟩ :=
  (C3_rnto_sequence exampleCfg emptyFS emptyFS initSession ("b.txt".data)
    ("c.txt".data)).1 rfl

/-- C4: for an authenticated session whose user permission carries no
write flag, each of STOR, MKD, RMD, DELE and RNFR is answered by the
single reply 550 with the session unchanged and no filesystem operation
attempted. -/
theorem C4_readonly_rejected (cfg : FTPConfig) (fs : FS) (env : Env)
    (s : Session) (arg u : Str) (info : UserInfo)
    (hlog : s.logged_in = true) (huser : s.username = some u)
    (hinfo : cfg.users u = some info)
    (hperm : 'w' ∉ info.perm) :
    handle_STOR cfg fs env s arg = ⟨s, [permDeniedReply], []⟩ ∧
    handle_MKD cfg fs s arg = ⟨s, [permDeniedReply], []⟩ ∧
    handle_RMD cfg fs s arg = ⟨s, [permDeniedReply], []⟩ ∧
    handle_DELE cfg fs s arg = ⟨s, [permDeniedReply], []⟩ ∧
    handle_RNFR cfg fs s arg = ⟨s, [permDeniedReply], []⟩ := by
  have hwp : write_perm_ok cfg s = false := by
    simp [write_perm_ok, user_perm, hlog, huser, hinfo, hperm]
  refine ⟨?_, ?_, ?_, ?_, ?_⟩ <;>
    simp [handle_STOR, handle_MKD, handle_RMD, handle_DELE, handle_RNFR,
      hlog, hwp]

/-- Concrete instance of C4: the read-only guest's MKD is denied. -/
theorem C4_readonly_rejected_witness :
    handle_MKD exampleCfg emptyFS guestSession ("sub".data) =
      ⟨guestSession, [permDeniedReply], []⟩ :=
  (C4_readonly_rejected exampleCfg emptyFS exampleEnv guestSession
    ("sub".data) ("guest".data) ⟨"guest".data, "r".data⟩ rfl rfl (by decide)
    (by decide)).2.1

/-- C9: a USER with an unknown name is answered 530 but leaves the
previously recorded known username in place, so a following PASS carrying
that user's password still authenticates the session with 230. -/
theorem C9_user_unknown_keeps_username (cfg : FTPConfig) (s : Session)
    (u1 u2 pw : Str) (info : UserInfo)
    (h1 : cfg.users u1 = some info) (h2 : cfg.users u2 = none)
    (hpw : info.password = pw) :
    (handle_USER cfg ((handle_USER cfg s u1).sess) u2).replies =
      [⟨530, "User not found.".data⟩] ∧
    (handle_USER cfg ((handle_USER cfg s u1).sess) u2).sess =
      (handle_USER cfg s u1).sess ∧
    ((handle_USER cfg s u1).sess).username = some u1 ∧
    (handle_PASS cfg (handle_USER cfg ((handle_USER cfg s u1).sess) u2).sess
      pw).replies = [⟨230, "User logged in, proceed.".data⟩] ∧
    (handle_PASS cfg (handle_USER cfg ((handle_USER cfg s u1).sess) u2).sess
      pw).sess.logged_in = true := by
  refine ⟨?_, ?_, ?_, ?_, ?_⟩ <;>
    simp [handle_USER, handle_PASS, h1, h2, hpw]

/-- Concrete instance of C9 with the default user table. -/
theorem C9_user_unknown_keeps_username_witness :
    (handle_PASS exampleCfg
      (handle_USER exampleCfg
        ((handle_USER exampleCfg initSession ("user".data)).sess)
        ("nobody".data)).sess
      ("123456".data)).sess.logged_in = true :=
  (C9_user_unknown_keeps_username exampleCfg initSession ("user".data)
    ("nobody".data) ("123456".data) ⟨"123456".data, "rw".data⟩ (by decide)
    (by decide) (by decide)).2.2.2.2

/-- C10: for an authenticated session, a CWD whose resolved real path is
not an existing directory is answered by the single reply 550; the
session state is unchanged and no filesystem operation is attempted. -/
theorem C10_cwd_failure_unchanged (cfg : FTPConfig) (fs : FS) (s : Session)
    (arg : Str) (hlog : s.logged_in = true)
    (hdir : fs.isdir (to_real_path cfg s.cwd
      (if arg = [] then ("/".data) else arg)) = false) :
    handle_CWD cfg fs s arg =
      ⟨s, [⟨550, "Failed to change directory.".data⟩], []⟩ := by
  simp [handle_CWD, hlog, hdir]

/-- Concrete instance of C10: CWD into a missing directory fails with
550 and changes nothing. -/
theorem C10_cwd_failure_unchanged_witness :
    handle_CWD exampleCfg emptyFS authedSession ("sub".data) =
      ⟨authedSession, [⟨550, "Failed to change directory.".data⟩], []⟩ :=
  C10_cwd_failure_unchanged exampleCfg emptyFS authedSession ("sub".data)
    rfl rfl

/-! ### Client model (simple_ftp.py) -/

/-- The client's error taxonomy: FTPProtocolError with its message, or a
ValueError escaping from int(). -/
inductive CErr where
  | protocolError (msg : Str)
  | valueError
deriving Repr, DecidableEq

/-- Python str.isdigit on the reply-code slices used here (the ASCII
digits; wider Unicode digit classes are not exercised on this wire). -/
def pyIsdigit (s : Str) : Bool := !s.isEmpty && s.all Char.isDigit

/-- Decimal value of a digit string. -/
def decVal (s : Str) : Nat :=
  s.foldl (fun a c => a * 10 + (c.toNat - '0'.toNat)) 0

/-- int() on a token: a ValueError unless the token is all digits (the
tokens parsed here are nonnegative decimals; the wider int() syntax such
as signs and inner spaces is not exercised). -/
def pyIntNat (s : Str) : Option Nat :=
  if pyIsdigit s then some (decVal s) else none

/-- line[4:] when len(line) > 3 and the empty text otherwise, as
_read_response computes the text of a reply line. -/
def replyTail (line : Str) : Str :=
  if 3 < line.length then line.drop 4 else []

/-- The loop of _read_response on a multi-line reply: keep reading lines
until one begins with the four-character code-and-space marker; an
exhausted stream is the connection-closed failure of _readline. -/
def readUntilMatch (mark : Str) : List Str → Except CErr (Str × List Str)
  | [] => .error (.protocolError ("Connection closed by server".data))
  | l :: rest =>
    if startsWith mark l then .ok (l, rest) else readUntilMatch mark rest

/-- FTPConnection._read_response over the stream of received reply lines
(each delivered with its trailing CR/LF already stripped, as _readline
does): decode one possibly multi-line control reply, returning the code,
the final text and the remaining stream. -/
def read_response (lines : List Str) : Except CErr ((Nat × Str) × List Str) :=
  match lines with
  | [] => .error (.protocolError ("Connection closed by server".data))
  | line :: rest =>
    if line.length < 3 ∨ ¬ pyIsdigit (line.take 3) then
      .error (.protocolError ("Invalid reply: ".data ++ line))
    else
      let code := decVal (line.take 3)
      if 4 ≤ line.length ∧ (line.drop 3).headI = '-' then
        match readUntilMatch (natStr code ++ [' ']) rest with
        | .ok (nl, rest2) => .ok ((code, replyTail nl), rest2)
        | .error e => .error e
      else .ok ((code, replyTail line), rest)

/-- Index of the first occurrence of a character (Python str.find for a
one-character needle; none models the return of minus one). -/
def findChar (c : Char) : Str → Option Nat
  | [] => none
  | x :: xs => if x == c then some 0 else (findChar c xs).map (· + 1)

/-- Python str.find(c, start). -/
def findCharFrom (c : Char) (s : Str) (start : Nat) : Option Nat :=
  (findChar c (s.drop start)).map (· + start)

/-- The PASV-address parsing of FTPConnection._enter_passive_mode: locate
the first opening parenthesis and the following closing one, split the
interior on commas into exactly six tokens, and compute the data host and
port = p1 * 256 + p2. -/
def parsePasv (text : Str) : Except CErr (Str × Nat) :=
  let st? := findCharFrom '(' text 0
  let en? := findCharFrom ')' text
    (match st? with
     | none => 0
     | some i => i + 1)
  match st?, en? with
  | some st, some en =>
    (match pySplitChar ',' ((text.drop (st + 1)).take (en - (st + 1))) with
     | [h1, h2, h3, h4, p1, p2] =>
       (match pyIntNat p1, pyIntNat p2 with
        | some v1, some v2 =>
          .ok (h1 ++ '.' :: h2 ++ '.' :: h3 ++ '.' :: h4, v1 * 256 + v2)
        | _, _ => .error .valueError)
     | _ => .error (.protocolError ("Invalid PASV address: ".data ++ text)))
  | _, _ => .error (.protocolError ("Invalid PASV reply: ".data ++ text))

/-- FTPConnection._enter_passive_mode over the control stream: send PASV,
require code 227, parse the address; only then is the data connection
opened. -/
def enter_passive_mode (ctrl : List Str) :
    Except CErr ((Str × Nat) × List Str) :=
  match read_response ctrl with
  | .error e => .error e
  | .ok ((code, text), rest) =>
    if code ≠ 227 then
      .error (.protocolError ("PASV failed: ".data ++ natStr code ++ ' ' :: text))
    else
      match parsePasv text with
      | .ok hp => .ok (hp, rest)
      | .error e => .error e

/-- The 4096-byte read loop shared by the transfers: the successive chunks
a socket or file read delivers until EOF. -/
def chunk4096 (bs : List Nat) : List (List Nat) :=
  if h : bs = [] then [] else bs.take 4096 :: chunk4096 (bs.drop 4096)
termination_by bs.length
decreasing_by
  simp only [List.length_drop]
  have hlen : bs.length ≠ 0 := fun hz => h (List.eq_nil_of_length_eq_zero hz)
  omega

/-- Python str.splitlines restricted to the CR/LF terminators that occur
on this wire. -/
def splitlinesGo : Str → Str → List Str
  | [], acc => if acc = [] then [] else [acc.reverse]
  | '\r' :: '\n' :: rest, acc => acc.reverse :: splitlinesGo rest []
  | '\r' :: rest, acc => acc.reverse :: splitlinesGo rest []
  | '\n' :: rest, acc => acc.reverse :: splitlinesGo rest []
  | c :: rest, acc => splitlinesGo rest (c :: acc)

def pySplitlines (s : Str) : List Str := splitlinesGo s []

/-- Python whitespace as tested by str.strip(). -/
def isPyWs (c : Char) : Bool := (" \t\n\r\x0b\x0c".data).contains c

/-- Python str.strip(). -/
def pyStrip (s : Str) : Str :=
  ((s.dropWhile isPyWs).reverse.dropWhile isPyWs).reverse

/-- FTPConnection.list_lines over the control stream and the decoded text
of the data channel (the forgiving UTF-8 decode is the identity at this
character-level model): TYPE I with its code unchecked, PASV requiring
227, LIST requiring 125 or 150, read all data until the channel closes,
keep the nonblank lines, then require 226 or 250. -/
def list_lines (ctrl : List Str) (dataText : Str) :
    Except CErr (List Str × List Str) :=
  match read_response ctrl with
  | .error e => .error e
  | .ok (_, ctrl1) =>
    match enter_passive_mode ctrl1 with
    | .error e => .error e
    | .ok (_, ctrl2) =>
      match read_response ctrl2 with
      | .error e => .error e
      | .ok ((code, text), ctrl3) =>
        if code ≠ 125 ∧ code ≠ 150 then
          .error (.protocolError ("LIST failed: ".data ++ natStr code ++ ' ' :: text))
        else
          let lines := ((pySplitlines dataText).filter
            (fun l => !(pyStrip l).isEmpty)).map (pyRstripSet ("\r\n".data))
          match read_response ctrl3 with
          | .error e => .error e
          | .ok ((c2, t2), ctrl4) =>
            if c2 ≠ 226 ∧ c2 ≠ 250 then
              .error (.protocolError ("LIST did not complete correctly: ".data
                ++ natStr c2 ++ ' ' :: t2))
            else .ok (lines, ctrl4)

/-- FTPConnection.retr_binary: the downloaded chunks handed to the
callback (4096-byte reads until EOF), with both reply checkpoints. -/
def retr_binary (ctrl : List Str) (data : List Nat) :
    Except CErr (List (List Nat) × List Str) :=
  match read_response ctrl with
  | .error e => .error e
  | .ok (_, ctrl1) =>
    match enter_passive_mode ctrl1 with
    | .error e => .error e
    | .ok (_, ctrl2) =>
      match read_response ctrl2 with
      | .error e => .error e
      | .ok ((code, text), ctrl3) =>
        if code ≠ 125 ∧ code ≠ 150 then
          .error (.protocolError ("RETR failed: ".data ++ natStr code ++ ' ' :: text))
        else
          let chunks := chunk4096 data
          match read_response ctrl3 with
          | .error e => .error e
          | .ok ((c2, t2), ctrl4) =>
            if c2 ≠ 226 ∧ c2 ≠ 250 then
              .error (.protocolError ("RETR did not complete correctly: ".data
                ++ natStr c2 ++ ' ' :: t2))
            else .ok (chunks, ctrl4)

/-- FTPConnection.stor_binary: the uploaded chunks read from the source
file object (4096-byte reads until EOF), with both reply checkpoints. -/
def stor_binary (ctrl : List Str) (fileData : List Nat) :
    Except CErr (List (List Nat) × List Str) :=
  match read_response ctrl with
  | .error e => .error e
  | .ok (_, ctrl1) =>
    match enter_passive_mode ctrl1 with
    | .error e => .error e
    | .ok (_, ctrl2) =>
      match read_response ctrl2 with
      | .error e => .error e
      | .ok ((code, text), ctrl3) =>
        if code ≠ 125 ∧ code ≠ 150 then
          .error (.protocolError ("STOR failed: ".data ++ natStr code ++ ' ' :: text))
        else
          let chunks := chunk4096 fileData
          match read_response ctrl3 with
          | .error e => .error e
          | .ok ((c2, t2), ctrl4) =>
            if c2 ≠ 226 ∧ c2 ≠ 250 then
              .error (.protocolError ("STOR did not complete correctly: ".data
                ++ natStr c2 ++ ' ' :: t2))
            else .ok (chunks, ctrl4)

/-- FTPConnection._send_cmd's serialization of one command line onto the
wire. -/
def sendCmdWire (cmd : Str) : Str := cmd ++ "\r\n".data

/-- The command-with-argument format used by every client command. -/
def cmdWithArg (c a : Str) : Str := c ++ ' ' :: a

/-- The dispatch parse of FTPSession.serve: split the decoded command line
at the first space and uppercase the command word; a missing second field
is the empty argument. -/
def parseCmdLine (cmdline : Str) : Str × Str :=
  let parts := pySplit1 ' ' cmdline
  (pyUpper parts.1, parts.2.getD [])

/-! ### C5: reply decoding -/

theorem natStr_code_facts : ∀ n : Nat, n < 600 → 100 ≤ n →
    (natStr n).length = 3 ∧ pyIsdigit (natStr n) = true ∧ decVal (natStr n) = n := by
  decide

theorem readUntilMatch_append (mark : Str) (bs : List Str) (l : Str)
    (rest : List Str) (hb : ∀ b ∈ bs, startsWith mark b = false)
    (hl : startsWith mark l = true) :
    readUntilMatch mark (bs ++ l :: rest) = .ok (l, rest) := by
  induction bs with
  | nil => simp [readUntilMatch, hl]
  | cons b bs' ih =>
    have hbb := hb b (by simp)
    simp [readUntilMatch, hbb, ih (fun x hx => hb x (by simp [hx]))]

theorem read_response_single (code : Nat) (text : Str) (rest : List Str)
    (h1 : 100 ≤ code) (h2 : code < 600) :
    read_response ((natStr code ++ ' ' :: text) :: rest) =
      .ok ((code, text), rest) := by
  obtain ⟨hlen3, hdig, hval⟩ := natStr_code_facts code h2 h1
  have htake : (natStr code ++ ' ' :: text).take 3 = natStr code :=
    List.take_left' hlen3
  have hdrop : (natStr code ++ ' ' :: text).drop 3 = ' ' :: text :=
    List.drop_left' hlen3
  have hlinelen : (natStr code ++ ' ' :: text).length = 4 + text.length := by
    rw [List.length_append, hlen3, List.length_cons]
    omega
  have hcond : ¬ ((natStr code ++ ' ' :: text).length < 3 ∨
      ¬ pyIsdigit ((natStr code ++ ' ' :: text).take 3)) := by
    push_neg
    refine ⟨by omega, ?_⟩
    rw [htake]
    exact hdig
  have hml : ¬ (4 ≤ (natStr code ++ ' ' :: text).length ∧
      ((natStr code ++ ' ' :: text).drop 3).headI = '-') := by
    rw [hdrop]
    rintro ⟨_, hcontra⟩
    simp [List.headI] at hcontra
  have htail : replyTail (natStr code ++ ' ' :: text) = text := by
    rw [replyTail, if_pos (by omega)]
    have hsp : (natStr code ++ ' ' :: text) = (natStr code ++ [' ']) ++ text := by
      simp
    rw [hsp]
    exact List.drop_left' (by simp [hlen3])
  simp only [read_response, if_neg hcond, if_neg hml, htake, hval, htail]
  rw [if_neg (by push_neg; exact ⟨by omega, hdig⟩)]

theorem read_response_multi (code : Nat) (t0 tfin : Str) (bs rest : List Str)
    (h1 : 100 ≤ code) (h2 : code < 600)
    (hb : ∀ b ∈ bs, startsWith (natStr code ++ [' ']) b = false) :
    read_response ((natStr code ++ '-' :: t0) ::
        (bs ++ (natStr code ++ ' ' :: tfin) :: rest)) =
      .ok ((code, tfin), rest) := by
  obtain ⟨hlen3, hdig, hval⟩ := natStr_code_facts code h2 h1
  have htake : (natStr code ++ '-' :: t0).take 3 = natStr code :=
    List.take_left' hlen3
  have hdrop : (natStr code ++ '-' :: t0).drop 3 = '-' :: t0 :=
    List.drop_left' hlen3
  have hlinelen : (natStr code ++ '-' :: t0).length = 4 + t0.length := by
    rw [List.length_append, hlen3, List.length_cons]
    omega
  have hcond : ¬ ((natStr code ++ '-' :: t0).length < 3 ∨
      ¬ pyIsdigit ((natStr code ++ '-' :: t0).take 3)) := by
    push_neg
    refine ⟨by omega, ?_⟩
    rw [htake]
    exact hdig
  have hml : 4 ≤ (natStr code ++ '-' :: t0).length ∧
      ((natStr code ++ '-' :: t0).drop 3).headI = '-' := by
    refine ⟨by omega, ?_⟩
    rw [hdrop]
    rfl
  have hmatch : readUntilMatch (natStr code ++ [' '])
      (bs ++ (natStr code ++ ' ' :: tfin) :: rest) =
      .ok ((natStr code ++ ' ' :: tfin), rest) := by
    refine readUntilMatch_append _ _ _ _ hb ?_
    have hsp : natStr code ++ ' ' :: tfin = (natStr code ++ [' ']) ++ tfin := by
      simp
    rw [hsp]
    exact startsWith_append_self _ _
  have htail : replyTail (natStr code ++ ' ' :: tfin) = tfin := by
    rw [replyTail, if_pos (by rw [List.length_append, hlen3, List.length_cons]; omega)]
    have hsp : (natStr code ++ ' ' :: tfin) = (natStr code ++ [' ']) ++ tfin := by
      simp
    rw [hsp]
    exact List.drop_left' (by simp [hlen3])
  simp only [read_response, if_neg hcond, if_pos hml, htake, hval, hmatch, htail]
  rw [if_neg (by push_neg; exact ⟨by omega, hdig⟩)]

/-- C5 counterexample: a continuation line of a multi-line reply that
fails the three-digit prefix check is skipped silently, not rejected: the
middle line here has fewer than three characters and no digit prefix, yet
the decode succeeds. -/
theorem C5_counterexample :
    read_response [("227-first".data), ("x".data), ("227 done".data)] =
      .ok ((227, "done".data), []) ∧
    (("x".data : Str).length < 3 ∨ ¬ pyIsdigit (("x".data : Str).take 3)) := by
  refine ⟨by rfl, ?_⟩
  decide

/-- C5 amended: a valid single-line reply decodes to its code and text
exactly; a multi-line reply returns the original three-digit code and the
trailing text of the first later line carrying the four-character
code-and-space marker, continuation lines without that marker (valid or
not) being skipped; a reply whose first line fails the three-digit prefix
check raises ProtocolError. -/
theorem C5_read_response (code : Nat) (text t0 tfin line : Str)
    (bs rest : List Str) (h1 : 100 ≤ code) (h2 : code < 600)
    (hb : ∀ b ∈ bs, startsWith (natStr code ++ [' ']) b = false)
    (hbad : line.length < 3 ∨ ¬ pyIsdigit (line.take 3)) :
    read_response ((natStr code ++ ' ' :: text) :: rest) =
      .ok ((code, text), rest) ∧
    read_response ((natStr code ++ '-' :: t0) ::
        (bs ++ (natStr code ++ ' ' :: tfin) :: rest)) =
      .ok ((code, tfin), rest) ∧
    read_response (line :: rest) =
      .error (.protocolError ("Invalid reply: ".data ++ line)) := by
  refine ⟨read_response_single code text rest h1 h2,
    read_response_multi code t0 tfin bs rest h1 h2 hb, ?_⟩
  simp only [read_response, if_pos hbad]

/-- Concrete instance of the amended C5 on a multi-line 227 reply. -/
theorem C5_read_response_witness :
    read_response [("227-info".data), ("noise".data), ("227 ok".data)] =
      .ok ((227, "ok".data), []) :=
  (C5_read_response 227 [] ("info".data) ("ok".data) ("ab".data)
    [("noise".data)] [] (by decide) (by decide) (by decide) (by decide)).2.1

/-! ### C6: PASV address encode and decode -/

/-- The 227 encoding of handle_PASV for a host and port: the host is
split on dots into four tokens, formatted with p1 = port / 256 and
p2 = port % 256 (none when the host does not split into four tokens). -/
def serverPasvText (host : Str) (port : Nat) : Option Str :=
  match pySplitChar '.' host with
  | [a, b, c, d] => some (pasv227 a b c d port)
  | _ => none

theorem natStr_digit_facts : ∀ n : Nat, n < 256 →
    pyIsdigit (natStr n) = true ∧ decVal (natStr n) = n ∧
    ',' ∉ natStr n ∧ '(' ∉ natStr n ∧ ')' ∉ natStr n ∧ '.' ∉ natStr n := by
  decide

theorem findChar_append_notin (c : Char) (a b : Str) (h : c ∉ a) :
    findChar c (a ++ b) = (findChar c b).map (· + a.length) := by
  induction a with
  | nil => cases hf : findChar c b <;> simp [hf]
  | cons x xs ih =>
    have hx : (x == c) = false :=
      beq_eq_false_iff_ne.2 (fun he => h (by simp [he]))
    have hxs : c ∉ xs := fun hm => h (by simp [hm])
    have hstep : findChar c (x :: (xs ++ b)) =
        (findChar c (xs ++ b)).map (· + 1) := by
      simp [findChar, hx]
    rw [List.cons_append, hstep, ih hxs]
    cases hf : findChar c b with
    | none => simp
    | some v => simp [Nat.add_assoc]

theorem splitChar_token (sep : Char) (a R : Str) (h : sep ∉ a) :
    pySplitChar sep (a ++ sep :: R) = a :: pySplitChar sep R := by
  rw [splitChar_append, splitChar_no_sep sep a h]
  rfl

theorem notin_interior (ch : Char) (a b c d t1 t2 : Str) (hch : ch ≠ ',')
    (ha : ch ∉ a) (hb : ch ∉ b) (hc : ch ∉ c) (hd : ch ∉ d)
    (h1 : ch ∉ t1) (h2 : ch ∉ t2) :
    ch ∉ a ++ ',' :: (b ++ ',' :: (c ++ ',' :: (d ++ ',' :: (t1 ++ ',' :: t2)))) := by
  intro hm
  simp only [List.mem_append, List.mem_cons] at hm
  rcases hm with h | h | h | h | h | h | h | h | h | h | h <;>
    first
      | exact ha h
      | exact hb h
      | exact hc h
      | exact hd h
      | exact h1 h
      | exact h2 h
      | exact hch h

theorem parsePasv_pasvLike (a b c d t1 t2 : Str) (v1 v2 : Nat)
    (ha : ',' ∉ a ∧ '(' ∉ a ∧ ')' ∉ a) (hb : ',' ∉ b ∧ '(' ∉ b ∧ ')' ∉ b)
    (hc : ',' ∉ c ∧ '(' ∉ c ∧ ')' ∉ c) (hd : ',' ∉ d ∧ '(' ∉ d ∧ ')' ∉ d)
    (h1 : ',' ∉ t1 ∧ '(' ∉ t1 ∧ ')' ∉ t1) (h2 : ',' ∉ t2 ∧ '(' ∉ t2 ∧ ')' ∉ t2)
    (hv1 : pyIntNat t1 = some v1) (hv2 : pyIntNat t2 = some v2) :
    parsePasv (("Entering Passive Mode ".data ++ ['(']) ++
        ((a ++ ',' :: (b ++ ',' :: (c ++ ',' :: (d ++ ',' :: (t1 ++ ',' :: t2)))))
          ++ ')' :: ['.'])) =
      .ok (a ++ '.' :: b ++ '.' :: c ++ '.' :: d, v1 * 256 + v2) := by
  set I : Str :=
    a ++ ',' :: (b ++ ',' :: (c ++ ',' :: (d ++ ',' :: (t1 ++ ',' :: t2)))) with hI
  set T : Str := ("Entering Passive Mode ".data ++ ['(']) ++ (I ++ ')' :: ['.'])
    with hT
  have hP : '(' ∉ ("Entering Passive Mode ".data : Str) := by decide
  have hPlen : ("Entering Passive Mode ".data : Str).length = 22 := by decide
  have hPlen1 : (("Entering Passive Mode ".data ++ ['(']) : Str).length = 23 := by
    decide
  have hIr : ')' ∉ I :=
    notin_interior ')' a b c d t1 t2 (by decide) ha.2.2 hb.2.2 hc.2.2 hd.2.2
      h1.2.2 h2.2.2
  have hdropT : T.drop 23 = I ++ ')' :: ['.'] := by
    rw [hT]
    exact List.drop_left' hPlen1
  have hfind1 : findCharFrom '(' T 0 = some 22 := by
    rw [findCharFrom, List.drop_zero, hT]
    have hre : ("Entering Passive Mode ".data ++ ['(']) ++ (I ++ ')' :: ['.']) =
        "Entering Passive Mode ".data ++ ('(' :: (I ++ ')' :: ['.'])) := by
      simp
    rw [hre, findChar_append_notin '(' _ _ hP]
    simp [findChar, hPlen]
  have hfind2 : findCharFrom ')' T 23 = some (I.length + 23) := by
    rw [findCharFrom, hdropT, findChar_append_notin ')' _ _ hIr]
    simp [findChar]
  have hslice : (T.drop 23).take (I.length + 23 - 23) = I := by
    rw [hdropT]
    simp [List.take_left]
  have hsplit : pySplitChar ',' I = [a, b, c, d, t1, t2] := by
    rw [hI, splitChar_token ',' a _ ha.1, splitChar_token ',' b _ hb.1,
      splitChar_token ',' c _ hc.1, splitChar_token ',' d _ hd.1,
      splitChar_token ',' t1 _ h1.1, splitChar_no_sep ',' t2 h2.1]
  simp only [parsePasv, hfind1]
  rw [show (22 : Nat) + 1 = 23 from rfl]
  simp only [hfind2]
  rw [show ∀ X : Str, X.drop (22 + 1) = X.drop 23 from fun X => rfl]
  simp only [show (22 : Nat) + 1 = 23 from rfl, hslice, hsplit, hv1, hv2]

/-- Parsing a 227 text formatted by pasv227 from in-range numeric tokens
recovers the dotted host and the port. -/
theorem parsePasv_pasv227 (n1 n2 n3 n4 q1 q2 : Nat)
    (hb1 : n1 < 256) (hb2 : n2 < 256) (hb3 : n3 < 256) (hb4 : n4 < 256)
    (hq1 : q1 < 256) (hq2 : q2 < 256) :
    parsePasv (pasv227 (natStr n1) (natStr n2) (natStr n3) (natStr n4)
        (q1 * 256 + q2)) =
      .ok (natStr n1 ++ '.' :: natStr n2 ++ '.' :: natStr n3 ++ '.' :: natStr n4,
        q1 * 256 + q2) := by
  have f1 := natStr_digit_facts n1 hb1
  have f2 := natStr_digit_facts n2 hb2
  have f3 := natStr_digit_facts n3 hb3
  have f4 := natStr_digit_facts n4 hb4
  have fq1 := natStr_digit_facts q1 hq1
  have fq2 := natStr_digit_facts q2 hq2
  have hdiv : (q1 * 256 + q2) / 256 = q1 := by omega
  have hmod : (q1 * 256 + q2) % 256 = q2 := by omega
  have hlit1 : ("Entering Passive Mode (".data : Str) =
      "Entering Passive Mode ".data ++ ['('] := by decide
  have hlit2 : (").".data : Str) = ')' :: ['.'] := by decide
  have hshape : pasv227 (natStr n1) (natStr n2) (natStr n3) (natStr n4)
      (q1 * 256 + q2) =
      ("Entering Passive Mode ".data ++ ['(']) ++
        ((natStr n1 ++ ',' :: (natStr n2 ++ ',' :: (natStr n3 ++ ',' ::
          (natStr n4 ++ ',' :: (natStr q1 ++ ',' :: natStr q2))))) ++
          ')' :: ['.']) := by
    rw [pasv227, hdiv, hmod, hlit1, hlit2]
    simp [List.append_assoc]
  rw [hshape]
  refine parsePasv_pasvLike (natStr n1) (natStr n2) (natStr n3) (natStr n4)
    (natStr q1) (natStr q2) q1 q2
    ⟨f1.2.2.1, f1.2.2.2.1, f1.2.2.2.2.1⟩
    ⟨f2.2.2.1, f2.2.2.2.1, f2.2.2.2.2.1⟩
    ⟨f3.2.2.1, f3.2.2.2.1, f3.2.2.2.2.1⟩
    ⟨f4.2.2.1, f4.2.2.2.1, f4.2.2.2.2.1⟩
    ⟨fq1.2.2.1, fq1.2.2.2.1, fq1.2.2.2.2.1⟩
    ⟨fq2.2.2.1, fq2.2.2.2.1, fq2.2.2.2.2.1⟩ ?_ ?_
  · rw [pyIntNat, if_pos fq1.1, fq1.2.1]
  · rw [pyIntNat, if_pos fq2.1, fq2.2.1]

/-- C6: formatting the 227 sextuple as the server does and parsing it as
the client does returns the same sextuple — the parsed data host is the
same dotted quad and the computed data port is p1 * 256 + p2 — while a
missing parenthesis, or an interior that does not split into exactly six
comma-separated tokens, fails with ProtocolError. -/
theorem C6_pasv_roundtrip (n1 n2 n3 n4 q1 q2 : Nat) (text : Str)
    (hb1 : n1 < 256) (hb2 : n2 < 256) (hb3 : n3 < 256) (hb4 : n4 < 256)
    (hq1 : q1 < 256) (hq2 : q2 < 256) :
    serverPasvText
        (natStr n1 ++ '.' :: natStr n2 ++ '.' :: natStr n3 ++ '.' :: natStr n4)
        (q1 * 256 + q2) =
      some (pasv227 (natStr n1) (natStr n2) (natStr n3) (natStr n4)
        (q1 * 256 + q2)) ∧
    parsePasv (pasv227 (natStr n1) (natStr n2) (natStr n3) (natStr n4)
        (q1 * 256 + q2)) =
      .ok (natStr n1 ++ '.' :: natStr n2 ++ '.' :: natStr n3 ++ '.' :: natStr n4,
        q1 * 256 + q2) ∧
    (findCharFrom '(' text 0 = none →
      parsePasv text =
        .error (.protocolError ("Invalid PASV reply: ".data ++ text))) ∧
    (∀ st, findCharFrom '(' text 0 = some st →
      findCharFrom ')' text (st + 1) = none →
      parsePasv text =
        .error (.protocolError ("Invalid PASV reply: ".data ++ text))) ∧
    (∀ st en nums, findCharFrom '(' text 0 = some st →
      findCharFrom ')' text (st + 1) = some en →
      pySplitChar ',' ((text.drop (st + 1)).take (en - (st + 1))) = nums →
      nums.length ≠ 6 →
      parsePasv text =
        .error (.protocolError ("Invalid PASV address: ".data ++ text))) := by
  have f1 := natStr_digit_facts n1 hb1
  have f2 := natStr_digit_facts n2 hb2
  have f3 := natStr_digit_facts n3 hb3
  have f4 := natStr_digit_facts n4 hb4
  have fq1 := natStr_digit_facts q1 hq1
  have fq2 := natStr_digit_facts q2 hq2
  have hdiv : (q1 * 256 + q2) / 256 = q1 := by omega
  have hmod : (q1 * 256 + q2) % 256 = q2 := by omega
  refine ⟨?_, ?_, ?_, ?_, ?_⟩
  · have hsplit4 : pySplitChar '.'
        (natStr n1 ++ '.' :: natStr n2 ++ '.' :: natStr n3 ++ '.' :: natStr n4) =
        [natStr n1, natStr n2, natStr n3, natStr n4] := by
      have hre : (natStr n1 ++ '.' :: natStr n2 ++ '.' :: natStr n3 ++
          '.' :: natStr n4 : Str) =
          natStr n1 ++ '.' :: (natStr n2 ++ '.' :: (natStr n3 ++
            '.' :: natStr n4)) := by
        simp [List.append_assoc]
      rw [hre, splitChar_token '.' _ _ f1.2.2.2.2.2,
        splitChar_token '.' _ _ f2.2.2.2.2.2,
        splitChar_token '.' _ _ f3.2.2.2.2.2,
        splitChar_no_sep '.' _ f4.2.2.2.2.2]
    simp only [serverPasvText, hsplit4]
  · exact parsePasv_pasv227 n1 n2 n3 n4 q1 q2 hb1 hb2 hb3 hb4 hq1 hq2
  · intro h0
    cases hE : findCharFrom ')' text 0 <;> simp [parsePasv, h0, hE]
  · intro st hst hen
    simp [parsePasv, hst, hen]
  · intro st en nums hst hen hnums hlen
    rcases nums with _ | ⟨a1, _ | ⟨a2, _ | ⟨a3, _ | ⟨a4, _ | ⟨a5, _ |
      ⟨a6, _ | ⟨a7, tl⟩⟩⟩⟩⟩⟩⟩ <;>
      first
        | exact absurd rfl hlen
        | simp [parsePasv, hst, hen, hnums]

/-- Concrete instance of C6: the sextuple 192,168,0,1 with port
195 * 256 + 80 round-trips. -/
theorem C6_pasv_roundtrip_witness :
    parsePasv (pasv227 (natStr 192) (natStr 168) (natStr 0) (natStr 1)
        (195 * 256 + 80)) =
      .ok (natStr 192 ++ '.' :: natStr 168 ++ '.' :: natStr 0 ++ '.' :: natStr 1,
        195 * 256 + 80) :=
  (C6_pasv_roundtrip 192 168 0 1 195 80 [] (by decide) (by decide) (by decide)
    (by decide) (by decide) (by decide)).2.1

/-! ### C7: transfer checkpoints -/

theorem chunk4096_join (bs : List Nat) : (chunk4096 bs).join = bs := by
  induction bs using chunk4096.induct with
  | case1 =>
    simp [chunk4096]
  | case2 bs hnil ih =>
    rw [chunk4096, dif_neg hnil]
    simp [ih]

theorem chunk4096_le (bs : List Nat) :
    ∀ ch ∈ chunk4096 bs, ch.length ≤ 4096 := by
  induction bs using chunk4096.induct with
  | case1 =>
    simp [chunk4096]
  | case2 bs hnil ih =>
    rw [chunk4096, dif_neg hnil]
    intro ch hch
    rcases List.mem_cons.1 hch with hch | hch
    · subst hch
      simp [List.length_take]
    · exact ih ch hch

/-- A control stream of four single-line replies: the TYPE I
acknowledgment, a 227 PASV reply, the transfer-start reply and the
completion reply, followed by any further lines. -/
def xferCtrl (cT : Nat) (tT : Str) (m1 m2 m3 m4 r1 r2 : Nat)
    (cX : Nat) (tX : Str) (cF : Nat) (tF : Str) (rest : List Str) : List Str :=
  (natStr cT ++ ' ' :: tT) ::
  (natStr 227 ++ ' ' :: pasv227 (natStr m1) (natStr m2) (natStr m3) (natStr m4)
    (r1 * 256 + r2)) ::
  (natStr cX ++ ' ' :: tX) ::
  (natStr cF ++ ' ' :: tF) :: rest

theorem not_ne_pair {a x y : Nat} (h : a = x ∨ a = y) : ¬ (a ≠ x ∧ a ≠ y) :=
  fun hcon => h.elim (fun he => hcon.1 he) (fun he => hcon.2 he)

set_option maxHeartbeats 1000000 in
/-- retr_binary on a four-reply control stream: the three checkpoint
outcomes. -/
theorem retr_checkpoints (cT cX cF m1 m2 m3 m4 r1 r2 : Nat)
    (tT tX tF : Str) (rest : List Str) (data : List Nat)
    (hcT1 : 100 ≤ cT) (hcT2 : cT < 600) (hcX1 : 100 ≤ cX) (hcX2 : cX < 600)
    (hcF1 : 100 ≤ cF) (hcF2 : cF < 600)
    (hm1 : m1 < 256) (hm2 : m2 < 256) (hm3 : m3 < 256) (hm4 : m4 < 256)
    (hr1 : r1 < 256) (hr2 : r2 < 256) :
    (cX ≠ 125 ∧ cX ≠ 150 →
      retr_binary (xferCtrl cT tT m1 m2 m3 m4 r1 r2 cX tX cF tF rest) data =
        .error (.protocolError ("RETR failed: ".data ++ natStr cX ++ ' ' :: tX))) ∧
    ((cX = 125 ∨ cX = 150) → cF ≠ 226 ∧ cF ≠ 250 →
      retr_binary (xferCtrl cT tT m1 m2 m3 m4 r1 r2 cX tX cF tF rest) data =
        .error (.protocolError
          ("RETR did not complete correctly: ".data ++ natStr cF ++ ' ' :: tF))) ∧
    ((cX = 125 ∨ cX = 150) → (cF = 226 ∨ cF = 250) →
      retr_binary (xferCtrl cT tT m1 m2 m3 m4 r1 r2 cX tX cF tF rest) data =
        .ok (chunk4096 data, rest)) := by
  have h4 : read_response ((natStr cF ++ ' ' :: tF) :: rest) =
      .ok ((cF, tF), rest) := read_response_single cF tF rest hcF1 hcF2
  have h3 : read_response ((natStr cX ++ ' ' :: tX) ::
      (natStr cF ++ ' ' :: tF) :: rest) =
      .ok ((cX, tX), (natStr cF ++ ' ' :: tF) :: rest) :=
    read_response_single cX tX _ hcX1 hcX2
  have h2 : read_response ((natStr 227 ++ ' ' :: pasv227 (natStr m1) (natStr m2)
      (natStr m3) (natStr m4) (r1 * 256 + r2)) ::
      (natStr cX ++ ' ' :: tX) :: (natStr cF ++ ' ' :: tF) :: rest) =
      .ok ((227, pasv227 (natStr m1) (natStr m2) (natStr m3) (natStr m4)
        (r1 * 256 + r2)),
        (natStr cX ++ ' ' :: tX) :: (natStr cF ++ ' ' :: tF) :: rest) :=
    read_response_single 227 _ _ (by omega) (by omega)
  have hpasv : enter_passive_mode ((natStr 227 ++ ' ' :: pasv227 (natStr m1)
      (natStr m2) (natStr m3) (natStr m4) (r1 * 256 + r2)) ::
      (natStr cX ++ ' ' :: tX) :: (natStr cF ++ ' ' :: tF) :: rest) =
      .ok ((natStr m1 ++ '.' :: natStr m2 ++ '.' :: natStr m3 ++ '.' :: natStr m4,
        r1 * 256 + r2),
        (natStr cX ++ ' ' :: tX) :: (natStr cF ++ ' ' :: tF) :: rest) := by
    simp only [enter_passive_mode, h2]
    rw [if_neg (by simp),
      parsePasv_pasv227 m1 m2 m3 m4 r1 r2 hm1 hm2 hm3 hm4 hr1 hr2]
  have h1 : read_response (xferCtrl cT tT m1 m2 m3 m4 r1 r2 cX tX cF tF rest) =
      .ok ((cT, tT), (natStr 227 ++ ' ' :: pasv227 (natStr m1) (natStr m2)
        (natStr m3) (natStr m4) (r1 * 256 + r2)) ::
        (natStr cX ++ ' ' :: tX) :: (natStr cF ++ ' ' :: tF) :: rest) :=
    read_response_single cT tT _ hcT1 hcT2
  refine ⟨?_, ?_, ?_⟩
  · intro hX
    simp only [retr_binary, h1, hpasv, h3]
    rw [if_pos hX]
  · intro hX hF
    simp only [retr_binary, h1, hpasv, h3, h4]
    rw [if_neg (not_ne_pair hX), if_pos hF]
  · intro hX hF
    simp only [retr_binary, h1, hpasv, h3, h4]
    rw [if_neg (not_ne_pair hX), if_neg (not_ne_pair hF)]
set_option maxHeartbeats 1000000 in
/-- stor_binary on a four-reply control stream: the three checkpoint
outcomes. -/
theorem stor_checkpoints (cT cX cF m1 m2 m3 m4 r1 r2 : Nat)
    (tT tX tF : Str) (rest : List Str) (fileData : List Nat)
    (hcT1 : 100 ≤ cT) (hcT2 : cT < 600) (hcX1 : 100 ≤ cX) (hcX2 : cX < 600)
    (hcF1 : 100 ≤ cF) (hcF2 : cF < 600)
    (hm1 : m1 < 256) (hm2 : m2 < 256) (hm3 : m3 < 256) (hm4 : m4 < 256)
    (hr1 : r1 < 256) (hr2 : r2 < 256) :
    (cX ≠ 125 ∧ cX ≠ 150 →
      stor_binary (xferCtrl cT tT m1 m2 m3 m4 r1 r2 cX tX cF tF rest) fileData =
        .error (.protocolError ("STOR failed: ".data ++ natStr cX ++ ' ' :: tX))) ∧
    ((cX = 125 ∨ cX = 150) → cF ≠ 226 ∧ cF ≠ 250 →
      stor_binary (xferCtrl cT tT m1 m2 m3 m4 r1 r2 cX tX cF tF rest) fileData =
        .error (.protocolError
          ("STOR did not complete correctly: ".data ++ natStr cF ++ ' ' :: tF))) ∧
    ((cX = 125 ∨ cX = 150) → (cF = 226 ∨ cF = 250) →
      stor_binary (xferCtrl cT tT m1 m2 m3 m4 r1 r2 cX tX cF tF rest) fileData =
        .ok (chunk4096 fileData, rest)) := by
  have h4 : read_response ((natStr cF ++ ' ' :: tF) :: rest) =
      .ok ((cF, tF), rest) := read_response_single cF tF rest hcF1 hcF2
  have h3 : read_response ((natStr cX ++ ' ' :: tX) ::
      (natStr cF ++ ' ' :: tF) :: rest) =
      .ok ((cX, tX), (natStr cF ++ ' ' :: tF) :: rest) :=
    read_response_single cX tX _ hcX1 hcX2
  have h2 : read_response ((natStr 227 ++ ' ' :: pasv227 (natStr m1) (natStr m2)
      (natStr m3) (natStr m4) (r1 * 256 + r2)) ::
      (natStr cX ++ ' ' :: tX) :: (natStr cF ++ ' ' :: tF) :: rest) =
      .ok ((227, pasv227 (natStr m1) (natStr m2) (natStr m3) (natStr m4)
        (r1 * 256 + r2)),
        (natStr cX ++ ' ' :: tX) :: (natStr cF ++ ' ' :: tF) :: rest) :=
    read_response_single 227 _ _ (by omega) (by omega)
  have hpasv : enter_passive_mode ((natStr 227 ++ ' ' :: pasv227 (natStr m1)
      (natStr m2) (natStr m3) (natStr m4) (r1 * 256 + r2)) ::
      (natStr cX ++ ' ' :: tX) :: (natStr cF ++ ' ' :: tF) :: rest) =
      .ok ((natStr m1 ++ '.' :: natStr m2 ++ '.' :: natStr m3 ++ '.' :: natStr m4,
        r1 * 256 + r2),
        (natStr cX ++ ' ' :: tX) :: (natStr cF ++ ' ' :: tF) :: rest) := by
    simp only [enter_passive_mode, h2]
    rw [if_neg (by simp),
      parsePasv_pasv227 m1 m2 m3 m4 r1 r2 hm1 hm2 hm3 hm4 hr1 hr2]
  have h1 : read_response (xferCtrl cT tT m1 m2 m3 m4 r1 r2 cX tX cF tF rest) =
      .ok ((cT, tT), (natStr 227 ++ ' ' :: pasv227 (natStr m1) (natStr m2)
        (natStr m3) (natStr m4) (r1 * 256 + r2)) ::
        (natStr cX ++ ' ' :: tX) :: (natStr cF ++ ' ' :: tF) :: rest) :=
    read_response_single cT tT _ hcT1 hcT2
  refine ⟨?_, ?_, ?_⟩
  · intro hX
    simp only [stor_binary, h1, hpasv, h3]
    rw [if_pos hX]
  · intro hX hF
    simp only [stor_binary, h1, hpasv, h3, h4]
    rw [if_neg (not_ne_pair hX), if_pos hF]
  · intro hX hF
    simp only [stor_binary, h1, hpasv, h3, h4]
    rw [if_neg (not_ne_pair hX), if_neg (not_ne_pair hF)]

set_option maxHeartbeats 1000000 in
/-- list_lines on a four-reply control stream: the three checkpoint
outcomes. -/
theorem list_checkpoints (cT cX cF m1 m2 m3 m4 r1 r2 : Nat)
    (tT tX tF : Str) (rest : List Str) (dataText : Str)
    (hcT1 : 100 ≤ cT) (hcT2 : cT < 600) (hcX1 : 100 ≤ cX) (hcX2 : cX < 600)
    (hcF1 : 100 ≤ cF) (hcF2 : cF < 600)
    (hm1 : m1 < 256) (hm2 : m2 < 256) (hm3 : m3 < 256) (hm4 : m4 < 256)
    (hr1 : r1 < 256) (hr2 : r2 < 256) :
    (cX ≠ 125 ∧ cX ≠ 150 →
      list_lines (xferCtrl cT tT m1 m2 m3 m4 r1 r2 cX tX cF tF rest) dataText =
        .error (.protocolError ("LIST failed: ".data ++ natStr cX ++ ' ' :: tX))) ∧
    ((cX = 125 ∨ cX = 150) → cF ≠ 226 ∧ cF ≠ 250 →
      list_lines (xferCtrl cT tT m1 m2 m3 m4 r1 r2 cX tX cF tF rest) dataText =
        .error (.protocolError
          ("LIST did not complete correctly: ".data ++ natStr cF ++ ' ' :: tF))) ∧
    ((cX = 125 ∨ cX = 150) → (cF = 226 ∨ cF = 250) →
      list_lines (xferCtrl cT tT m1 m2 m3 m4 r1 r2 cX tX cF tF rest) dataText =
        .ok (((pySplitlines dataText).filter
          (fun l => !(pyStrip l).isEmpty)).map (pyRstripSet ("\r\n".data)),
          rest)) := by
  have h4 : read_response ((natStr cF ++ ' ' :: tF) :: rest) =
      .ok ((cF, tF), rest) := read_response_single cF tF rest hcF1 hcF2
  have h3 : read_response ((natStr cX ++ ' ' :: tX) ::
      (natStr cF ++ ' ' :: tF) :: rest) =
      .ok ((cX, tX), (natStr cF ++ ' ' :: tF) :: rest) :=
    read_response_single cX tX _ hcX1 hcX2
  have h2 : read_response ((natStr 227 ++ ' ' :: pasv227 (natStr m1) (natStr m2)
      (natStr m3) (natStr m4) (r1 * 256 + r2)) ::
      (natStr cX ++ ' ' :: tX) :: (natStr cF ++ ' ' :: tF) :: rest) =
      .ok ((227, pasv227 (natStr m1) (natStr m2) (natStr m3) (natStr m4)
        (r1 * 256 + r2)),
        (natStr cX ++ ' ' :: tX) :: (natStr cF ++ ' ' :: tF) :: rest) :=
    read_response_single 227 _ _ (by omega) (by omega)
  have hpasv : enter_passive_mode ((natStr 227 ++ ' ' :: pasv227 (natStr m1)
      (natStr m2) (natStr m3) (natStr m4) (r1 * 256 + r2)) ::
      (natStr cX ++ ' ' :: tX) :: (natStr cF ++ ' ' :: tF) :: rest) =
      .ok ((natStr m1 ++ '.' :: natStr m2 ++ '.' :: natStr m3 ++ '.' :: natStr m4,
        r1 * 256 + r2),
        (natStr cX ++ ' ' :: tX) :: (natStr cF ++ ' ' :: tF) :: rest) := by
    simp only [enter_passive_mode, h2]
    rw [if_neg (by simp),
      parsePasv_pasv227 m1 m2 m3 m4 r1 r2 hm1 hm2 hm3 hm4 hr1 hr2]
  have h1 : read_response (xferCtrl cT tT m1 m2 m3 m4 r1 r2 cX tX cF tF rest) =
      .ok ((cT, tT), (natStr 227 ++ ' ' :: pasv227 (natStr m1) (natStr m2)
        (natStr m3) (natStr m4) (r1 * 256 + r2)) ::
        (natStr cX ++ ' ' :: tX) :: (natStr cF ++ ' ' :: tF) :: rest) :=
    read_response_single cT tT _ hcT1 hcT2
  refine ⟨?_, ?_, ?_⟩
  · intro hX
    simp only [list_lines, h1, hpasv, h3]
    rw [if_pos hX]
  · intro hX hF
    simp only [list_lines, h1, hpasv, h3, h4]
    rw [if_neg (not_ne_pair hX), if_pos hF]
  · intro hX hF
    simp only [list_lines, h1, hpasv, h3, h4]
    rw [if_neg (not_ne_pair hX), if_neg (not_ne_pair hF)]

set_option maxHeartbeats 1000000 in
/-- C7: each transfer operation accepts any TYPE reply code, requires 227
for PASV, requires an intermediate 125 or 150 reply after the request
command and a 226 or 250 completion reply after the data channel closes;
any other code at either checkpoint fails with ProtocolError regardless
of the data already moved; the streamed chunks are at most 4096 bytes
each and cover all bytes. -/
theorem C7_transfer_checkpoints (cT cX cF m1 m2 m3 m4 r1 r2 : Nat)
    (tT tX tF : Str) (rest : List Str) (data fileData : List Nat)
    (dataText : Str)
    (hcT1 : 100 ≤ cT) (hcT2 : cT < 600) (hcX1 : 100 ≤ cX) (hcX2 : cX < 600)
    (hcF1 : 100 ≤ cF) (hcF2 : cF < 600)
    (hm1 : m1 < 256) (hm2 : m2 < 256) (hm3 : m3 < 256) (hm4 : m4 < 256)
    (hr1 : r1 < 256) (hr2 : r2 < 256) :
    (cX ≠ 125 ∧ cX ≠ 150 →
      retr_binary (xferCtrl cT tT m1 m2 m3 m4 r1 r2 cX tX cF tF rest) data =
        .error (.protocolError ("RETR failed: ".data ++ natStr cX ++ ' ' :: tX))) ∧
    ((cX = 125 ∨ cX = 150) → cF ≠ 226 ∧ cF ≠ 250 →
      retr_binary (xferCtrl cT tT m1 m2 m3 m4 r1 r2 cX tX cF tF rest) data =
        .error (.protocolError
          ("RETR did not complete correctly: ".data ++ natStr cF ++ ' ' :: tF))) ∧
    ((cX = 125 ∨ cX = 150) → (cF = 226 ∨ cF = 250) →
      retr_binary (xferCtrl cT tT m1 m2 m3 m4 r1 r2 cX tX cF tF rest) data =
        .ok (chunk4096 data, rest)) ∧
    (cX ≠ 125 ∧ cX ≠ 150 →
      stor_binary (xferCtrl cT tT m1 m2 m3 m4 r1 r2 cX tX cF tF rest) fileData =
        .error (.protocolError ("STOR failed: ".data ++ natStr cX ++ ' ' :: tX))) ∧
    ((cX = 125 ∨ cX = 150) → cF ≠ 226 ∧ cF ≠ 250 →
      stor_binary (xferCtrl cT tT m1 m2 m3 m4 r1 r2 cX tX cF tF rest) fileData =
        .error (.protocolError
          ("STOR did not complete correctly: ".data ++ natStr cF ++ ' ' :: tF))) ∧
    ((cX = 125 ∨ cX = 150) → (cF = 226 ∨ cF = 250) →
      stor_binary (xferCtrl cT tT m1 m2 m3 m4 r1 r2 cX tX cF tF rest) fileData =
        .ok (chunk4096 fileData, rest)) ∧
    (cX ≠ 125 ∧ cX ≠ 150 →
      list_lines (xferCtrl cT tT m1 m2 m3 m4 r1 r2 cX tX cF tF rest) dataText =
        .error (.protocolError ("LIST failed: ".data ++ natStr cX ++ ' ' :: tX))) ∧
    ((cX = 125 ∨ cX = 150) → cF ≠ 226 ∧ cF ≠ 250 →
      list_lines (xferCtrl cT tT m1 m2 m3 m4 r1 r2 cX tX cF tF rest) dataText =
        .error (.protocolError
          ("LIST did not complete correctly: ".data ++ natStr cF ++ ' ' :: tF))) ∧
    ((cX = 125 ∨ cX = 150) → (cF = 226 ∨ cF = 250) →
      list_lines (xferCtrl cT tT m1 m2 m3 m4 r1 r2 cX tX cF tF rest) dataText =
        .ok (((pySplitlines dataText).filter
          (fun l => !(pyStrip l).isEmpty)).map (pyRstripSet ("\r\n".data)),
          rest)) ∧
    (chunk4096 data).join = data ∧
    (∀ ch ∈ chunk4096 data, ch.length ≤ 4096) := by
  obtain ⟨r1c, r2c, r3c⟩ := retr_checkpoints cT cX cF m1 m2 m3 m4 r1 r2
    tT tX tF rest data hcT1 hcT2 hcX1 hcX2 hcF1 hcF2 hm1 hm2 hm3 hm4 hr1 hr2
  obtain ⟨s1c, s2c, s3c⟩ := stor_checkpoints cT cX cF m1 m2 m3 m4 r1 r2
    tT tX tF rest fileData hcT1 hcT2 hcX1 hcX2 hcF1 hcF2 hm1 hm2 hm3 hm4 hr1 hr2
  obtain ⟨l1c, l2c, l3c⟩ := list_checkpoints cT cX cF m1 m2 m3 m4 r1 r2
    tT tX tF rest dataText hcT1 hcT2 hcX1 hcX2 hcF1 hcF2 hm1 hm2 hm3 hm4 hr1 hr2
  exact ⟨r1c, r2c, r3c, s1c, s2c, s3c, l1c, l2c, l3c, chunk4096_join data,
    chunk4096_le data⟩

/-- Concrete instance of C7: a RETR on a well-behaved reply stream
delivers all the bytes in one chunk. -/
theorem C7_transfer_checkpoints_witness :
    retr_binary (xferCtrl 200 ("ok".data) 127 0 0 1 195 80 150
      ("go".data) 226 ("done".data) []) [7, 8, 9] =
      .ok (chunk4096 [7, 8, 9], []) :=
  (C7_transfer_checkpoints 200 150 226 127 0 0 1 195 80 ("ok".data)
    ("go".data) ("done".data) [] [7, 8, 9] [] [] (by omega) (by omega)
    (by omega) (by omega) (by omega) (by omega) (by omega) (by omega)
    (by omega) (by omega) (by omega) (by omega)).2.2.1 (by omega) (by omega)

/-! ### C8: command encode and decode round trip -/

theorem readLine1_append (x y : Str) (h : '\n' ∉ x) :
    readLine1 (x ++ y) = x ++ readLine1 y := by
  induction x with
  | nil => simp
  | cons z zs ih =>
    have hz : z ≠ '\n' := fun he => h (by simp [he])
    have hzs : '\n' ∉ zs := fun hm => h (by simp [hm])
    simp [readLine1, hz, ih hzs]

theorem crlf_contains_false (z : Char) (h1 : z ≠ '\r') (h2 : z ≠ '\n') :
    ("\r\n".data).contains z = false := by
  have hd : ("\r\n".data : Str) = ['\r', '\n'] := rfl
  rw [hd]
  simp [List.contains, h1, h2]

theorem pyRstrip_cmd (c a : Str) (ha1 : '\r' ∉ a) (ha2 : '\n' ∉ a) :
    pyRstripSet ("\r\n".data) ((c ++ ' ' :: a) ++ ['\r', '\n']) =
      c ++ ' ' :: a := by
  rw [pyRstripSet]
  have hrev : ((c ++ ' ' :: a) ++ ['\r', '\n']).reverse =
      '\n' :: '\r' :: (a.reverse ++ ' ' :: c.reverse) := by
    simp
  rw [hrev, List.dropWhile_cons, if_pos (by decide), List.dropWhile_cons,
    if_pos (by decide)]
  have hdw : (a.reverse ++ ' ' :: c.reverse).dropWhile
      (fun ch => ("\r\n".data).contains ch) = a.reverse ++ ' ' :: c.reverse := by
    cases hra : a.reverse with
    | nil =>
      simp only [List.nil_append, List.dropWhile_cons]
      rw [if_neg (by decide)]
    | cons z zs =>
      have hz : z ∈ a := by
        rw [← List.mem_reverse, hra]
        exact List.mem_cons_self _ _
      have h1 : z ≠ '\r' := fun he => ha1 (he ▸ hz)
      have h2 : z ≠ '\n' := fun he => ha2 (he ▸ hz)
      have hcontains : ¬ (("\r\n".data).contains z = true) := by
        simp
        exact ⟨h1, h2⟩
      rw [List.cons_append, List.dropWhile_cons, if_neg hcontains]
  rw [hdw]
  simp

/-- C8: serializing a command word with an argument as the client does and
decoding it on the server (read one line through the newline, strip the
trailing CR/LF, split at the first space, uppercase the command word)
yields exactly the argument, with nothing trimmed beyond the protocol
CRLF. -/
theorem C8_command_roundtrip (c a : Str)
    (hc1 : ' ' ∉ c) (hc3 : '\n' ∉ c)
    (ha1 : '\r' ∉ a) (ha2 : '\n' ∉ a) :
    parseCmdLine (read_command (sendCmdWire (cmdWithArg c a))) =
      (pyUpper c, a) := by
  have hwire : sendCmdWire (cmdWithArg c a) =
      (c ++ ' ' :: a) ++ ['\r', '\n'] := by
    simp [sendCmdWire, cmdWithArg]
  have hnot : '\n' ∉ c ++ ' ' :: a := by
    intro hm
    rcases List.mem_append.1 hm with hm | hm
    · exact hc3 hm
    · rcases List.mem_cons.1 hm with hm | hm
      · cases hm
      · exact ha2 hm
  have hline : readLine1 ((c ++ ' ' :: a) ++ ['\r', '\n']) =
      (c ++ ' ' :: a) ++ ['\r', '\n'] := by
    rw [readLine1_append _ _ hnot]
    rfl
  have hrc : read_command (sendCmdWire (cmdWithArg c a)) = c ++ ' ' :: a := by
    rw [read_command, hwire, hline, pyRstrip_cmd c a ha1 ha2]
  rw [hrc]
  simp only [parseCmdLine, pySplit1_no_sep_append ' ' c a hc1]
  rfl

/-- Concrete instance of C8: a lower-case command word with an argument
containing an inner space round-trips exactly. -/
theorem C8_command_roundtrip_witness :
    parseCmdLine (read_command (sendCmdWire
      (cmdWithArg ("retr".data) ("my file.txt".data)))) =
      (pyUpper ("retr".data), ("my file.txt".data)) :=
  C8_command_roundtrip ("retr".data) ("my file.txt".data) (by decide)
    (by decide) (by decide) (by decide)

end SimpleFTP
